import Mathlib

/-!
# Shallow embedding of the MiraWish wishlist-tracking API

This file embeds the authorization / ownership / session core of the
`app/` package (FastAPI + SQLAlchemy) as executable Lean definitions and
proves properties of the embedded handlers.

Conventions of the embedding:
* the relational store is a `DB` record of lists of rows; `scalar_one_or_none`
  on a filtered `select` becomes `List.find?` with the same predicate;
* SQLAlchemy bulk `update(...).values(...)` becomes `List.map` guarded by the
  same `where` predicate, `db.delete` plus ORM cascade becomes `List.filter`;
* each route handler is a function `DB → args → Except ApiError result`;
  raising an exception models an aborted (rolled back / never committed)
  transaction, so an `.error` outcome leaves the caller's `DB` unchanged;
* `datetime.utcnow` is a monotone `Nat` clock carried in the `DB`;
  `Decimal` prices are integers (cents);
* the external libraries the handlers call are embedded through their
  documented contracts: passlib's `CryptContext(["bcrypt"]).verify` raises
  `UnknownHashError` on a hash it cannot identify, python-jose's `jwt.decode`
  checks the signature and (when the claim is present) rejects `exp < now`,
  and FastAPI's `HTTPBearer(auto_error=True)` rejects an absent or
  non-bearer `Authorization` header with an HTTP 403 before the dependency
  body runs.
-/

namespace MiraWish

/-! ## Credential store (`app/auth/dependencies.py`, passlib) -/

/-- A string in the position of a stored password hash, as passlib's
`CryptContext(schemes=["bcrypt"])` classifies it: either a well-formed bcrypt
hash (which, being one-way, we represent by the salt and the hashed password)
or a string that matches no configured scheme. -/
inductive HashStr : Type
  | bcrypt (salt : Nat) (pw : String)
  | malformed (s : String)
deriving DecidableEq, Repr

/-- Errors passlib can raise from `CryptContext.verify`. -/
inductive PasslibError : Type
  | unknownHash
deriving DecidableEq, Repr

/-- `hash_password` (dependencies.py:28): `pwd_context.hash(password)` with a
fresh salt. -/
def hash_password (password : String) (salt : Nat) : HashStr :=
  .bcrypt salt password

/-- passlib `CryptContext(schemes=["bcrypt"]).verify`: compares against a
well-formed bcrypt hash; raises `UnknownHashError` when the hash string
matches no configured scheme. -/
def cryptContextVerify (plain : String) (hashed : HashStr) :
    Except PasslibError Bool :=
  match hashed with
  | .bcrypt _ pw => .ok (plain == pw)
  | .malformed _ => .error .unknownHash

/-- `verify_password` (dependencies.py:48-67): returns
`pwd_context.verify(plain_password, hashed_password)` with no exception
handling of its own. -/
def verify_password (plain_password : String) (hashed_password : HashStr) :
    Except PasslibError Bool :=
  cryptContextVerify plain_password hashed_password

/-- `re.search(r'[a-zA-Z]', password)` as a Bool. -/
def hasLetter (s : String) : Bool :=
  s.data.any (fun c => c.isAlpha)

/-- `re.search(r'\d', password)` as a Bool (ASCII digits). -/
def hasDigit (s : String) : Bool :=
  s.data.any (fun c => c.isDigit)

/-- `get_password_validation_errors` (dependencies.py:110-141). -/
def get_password_validation_errors (password : String) : List String :=
  (if password.length < 8 then
    ["Password must be at least 8 characters long"] else []) ++
  (if password.length > 100 then
    ["Password must be at most 100 characters long"] else []) ++
  (if !hasLetter password then
    ["Password must contain at least one letter"] else []) ++
  (if !hasDigit password then
    ["Password must contain at least one number"] else [])

/-- `validate_password_strength` (dependencies.py:70-107). -/
def validate_password_strength (password : String) : Bool :=
  !(password.length < 8 || password.length > 100) &&
    hasLetter password && hasDigit password

/-! ## Session token service (`app/auth/jwt_handler.py`, python-jose) -/

/-- The claim set carried by a token: `sub` as put in by the caller of
`create_access_token` (absent if the data dict had no `"sub"`), `exp` and
`iat` as stamped by `create_access_token`. -/
structure TokenPayload : Type where
  sub : Option String
  exp : Option Int
  iat : Int
deriving DecidableEq, Repr

/-- A bearer token: either a well-formed JWS produced by `jose.jwt.encode`
under some secret, or a string that is not a decodable JWT at all. -/
inductive Token : Type
  | signed (secret : String) (payload : TokenPayload)
  | malformed (s : String)
deriving DecidableEq, Repr

/-- `jose.jwt.decode(token, secret, algorithms=["HS256"])` with default
options at time `now`: fails on a structurally invalid token or a signature
mismatch; when the `exp` claim is present it is validated with zero leeway,
rejecting the token iff `exp < now`. -/
def joseDecode (tok : Token) (secret : String) (now : Int) :
    Option TokenPayload :=
  match tok with
  | .malformed _ => none
  | .signed s p =>
    if s = secret then
      match p.exp with
      | some e => if e < now then none else some p
      | none => some p
    else none

/-- `create_access_token` (jwt_handler.py:23-49) issued at time `now` for the
payload `{"sub": sub}`, with expiry `now + expireMinutes·60` (the
`ACCESS_TOKEN_EXPIRE_MINUTES` default, or the caller's `expires_delta`). -/
def create_access_token (secret : String) (sub : String) (now : Int)
    (expireMinutes : Int) : Token :=
  .signed secret { sub := some sub, exp := some (now + expireMinutes * 60), iat := now }

/-- `verify_token` (jwt_handler.py:52-73): `jwt.decode` under the process
secret, collapsing every `JWTError` to `None`. -/
def verify_token (secret : String) (now : Int) (tok : Token) :
    Option TokenPayload :=
  joseDecode tok secret now

/-- `decode_token` (jwt_handler.py:76-96): the `sub` claim of a verified
token, else `None`. -/
def decode_token (secret : String) (now : Int) (tok : Token) : Option String :=
  match verify_token secret now tok with
  | none => none
  | some payload => payload.sub

/-- `is_token_expired` (jwt_handler.py:109-128): `True` when the token fails
to verify or carries no `exp`, else `now > exp`. -/
def is_token_expired (secret : String) (now : Int) (tok : Token) : Bool :=
  match verify_token secret now tok with
  | none => true
  | some payload =>
    match payload.exp with
    | none => true
    | some e => now > e

/-! ## Data model (`app/models/*.py`) -/

/-- Row of `users` (models/user.py). -/
structure UserRec : Type where
  id : Nat
  email : String
  hashed_password : HashStr
deriving DecidableEq, Repr

/-- Row of `wishlist_collections` (models/wishlist_collection.py). -/
structure CollectionRec : Type where
  id : Nat
  user_id : Nat
  name : String
  description : Option String
  color : Option String
  is_default : Bool
  created_at : Nat
deriving DecidableEq, Repr

/-- Row of `wishlist_items` (models/wishlist.py); prices in cents. -/
structure ItemRec : Type where
  id : Nat
  user_id : Nat
  collection_id : Nat
  title : String
  product_url : Option String
  initial_price : Int
  current_price : Int
  currency : String
  created_at : Nat
deriving DecidableEq, Repr

/-- Row of `price_history` (models/price_history.py). -/
structure PriceRec : Type where
  id : Nat
  wishlist_item_id : Nat
  price : Int
  checked_at : Nat
deriving DecidableEq, Repr

/-- The relational store plus the id sequence and the wall clock. -/
structure DB : Type where
  users : List UserRec
  collections : List CollectionRec
  items : List ItemRec
  price_history : List PriceRec
  next_id : Nat
  now : Nat
deriving DecidableEq, Repr

/-- The exceptions the handlers raise (`app/exceptions.py` plus FastAPI's
`HTTPException` with an explicit status code). -/
inductive ApiError : Type
  | authenticationError (msg : String)
  | authorizationError (msg : String)
  | resourceNotFound (msg : String)
  | conflictError (msg : String)
  | validationError (msg : String)
  | httpException (code : Nat) (msg : String)
deriving DecidableEq, Repr

/-- The HTTP status each exception kind is mapped to by the exception
handlers in `app/exceptions.py` / FastAPI. -/
def ApiError.status : ApiError → Nat
  | .authenticationError _ => 401
  | .authorizationError _ => 403
  | .resourceNotFound _ => 404
  | .conflictError _ => 409
  | .validationError _ => 422
  | .httpException code _ => code

/-! ## Authorization guard (`app/auth/dependencies.py`, FastAPI HTTPBearer) -/

/-- The request's `Authorization` header: `none` when absent, otherwise the
scheme word and the credential part after the first space (`none` credential
when nothing follows the scheme). The credential slot carries our `Token`. -/
def AuthHeader : Type := Option (String × Option Token)

/-- `scheme.lower() == "bearer"` (character-wise ASCII lowering). -/
def schemeIsBearer (scheme : String) : Bool :=
  scheme.data.map Char.toLower == "bearer".data

/-- FastAPI `HTTPBearer(auto_error=True)`: 403 `"Not authenticated"` when the
header is absent or scheme/credentials are missing, 403
`"Invalid authentication credentials"` when the scheme is not `bearer`. -/
def httpBearerExtract (header : AuthHeader) : Except ApiError Token :=
  match header with
  | none => .error (.httpException 403 "Not authenticated")
  | some (scheme, cred) =>
    match cred with
    | none => .error (.httpException 403 "Not authenticated")
    | some tok =>
      if scheme = "" then .error (.httpException 403 "Not authenticated")
      else if !schemeIsBearer scheme then
        .error (.httpException 403 "Invalid authentication credentials")
      else .ok tok

/-- `get_current_user` (dependencies.py:144-191) together with its
`Depends(security)` extraction: resolve the bearer token to the `User` whose
email is the token's subject. -/
def get_current_user (db : DB) (secret : String) (header : AuthHeader) :
    Except ApiError UserRec :=
  match httpBearerExtract header with
  | .error e => .error e
  | .ok token =>
    match decode_token secret (db.now : Int) token with
    | none => .error (.authenticationError "Could not validate credentials")
    | some email =>
      match db.users.find? (fun u => u.email == email) with
      | none => .error (.authenticationError "Could not validate credentials")
      | some user => .ok user

/-! ## Auth routes (`app/routes/auth.py`) -/

/-- `register_user` (auth.py:23-92): password-strength validation, email
pre-check, then insert of the new `User`; no collection is created. `salt`
stands for the fresh bcrypt salt drawn inside `hash_password`. -/
def register_user (db : DB) (email password : String) (salt : Nat) :
    Except ApiError (UserRec × DB) :=
  if get_password_validation_errors password ≠ [] then
    .error (.validationError "Password validation failed")
  else
    match db.users.find? (fun u => u.email == email) with
    | some _ => .error (.conflictError "Email already registered")
    | none =>
      let user : UserRec :=
        { id := db.next_id, email := email
          hashed_password := hash_password password salt }
      .ok (user, { db with users := db.users ++ [user], next_id := db.next_id + 1 })

/-- `login_user` (auth.py:95-144): look up the user, verify the password,
issue a token for `{"sub": user.email}`. The surrounding
`except AuthenticationError: raise / except Exception: HTTPException(500)`
turns a passlib raise into the 500 `"Authentication failed"`. -/
def login_user (db : DB) (secret : String) (expireMinutes : Int)
    (email password : String) : Except ApiError Token :=
  match db.users.find? (fun u => u.email == email) with
  | none => .error (.authenticationError "Invalid email or password")
  | some user =>
    match verify_password password user.hashed_password with
    | .error _ => .error (.httpException 500 "Authentication failed")
    | .ok ok =>
      if !ok then .error (.authenticationError "Invalid email or password")
      else .ok (create_access_token secret user.email (db.now : Int) expireMinutes)

/-! ## Collection routes (`app/routes/wishlist_collections.py`) -/

/-- `WishlistCollectionCreate` (schemas/wishlist_collection.py:14-34);
pydantic defaults `is_default` to `False`. -/
structure WishlistCollectionCreate : Type where
  name : String
  description : Option String
  color : Option String
  is_default : Bool
deriving DecidableEq, Repr

/-- `WishlistCollectionUpdate` (schemas/wishlist_collection.py:48-68):
every field optional; `none` models a field left unset in the payload
(pydantic `exclude_unset`). -/
structure WishlistCollectionUpdate : Type where
  name : Option String
  description : Option String
  color : Option String
  is_default : Option Bool
deriving DecidableEq, Repr

/-- The `setattr` loop of `update_collection` over
`model_dump(exclude_unset=True)`. -/
def applyCollectionUpdate (c : CollectionRec) (d : WishlistCollectionUpdate) :
    CollectionRec :=
  let c := match d.name with | some v => { c with name := v } | none => c
  let c := match d.description with | some v => { c with description := some v } | none => c
  let c := match d.color with | some v => { c with color := some v } | none => c
  match d.is_default with | some v => { c with is_default := v } | none => c

/-- Per-row action of the bulk `update(...).values(is_default=False)` that
clears a default collection of `uid`. -/
def clearFn (uid : Nat) (c : CollectionRec) : CollectionRec :=
  if c.user_id == uid && c.is_default then { c with is_default := false } else c

/-- The bulk `update(...).values(is_default=False)` that clears every default
collection of `uid` (wishlist_collections.py:302-310 and 69-77). -/
def clearDefaults (uid : Nat) (l : List CollectionRec) : List CollectionRec :=
  l.map (clearFn uid)

/-- Per-row action of the same bulk update excluding the row `cid`. -/
def clearExFn (uid cid : Nat) (c : CollectionRec) : CollectionRec :=
  if c.user_id == uid && c.is_default && c.id != cid then
    { c with is_default := false } else c

/-- Same bulk update but excluding the row `cid`
(wishlist_collections.py:211-221). -/
def clearDefaultsExcept (uid cid : Nat) (l : List CollectionRec) :
    List CollectionRec :=
  l.map (clearExFn uid cid)

/-- The ORM-side write-back of the loaded row `cid` as `x` (the
`setattr`/assignment on the object followed by `commit`). -/
def replaceFn (cid : Nat) (x : CollectionRec) (c : CollectionRec) : CollectionRec :=
  if c.id == cid then x else c

/-- `create_collection` (wishlist_collections.py:40-95). -/
def create_collection (db : DB) (uid : Nat) (d : WishlistCollectionCreate) :
    Except ApiError (CollectionRec × DB) :=
  match db.collections.find? (fun c => c.user_id == uid && c.name == d.name) with
  | some _ => .error (.conflictError "Collection with this name already exists")
  | none =>
    .ok ({ id := db.next_id, user_id := uid, name := d.name
           description := d.description, color := d.color
           is_default := d.is_default, created_at := db.now },
      { db with
        collections :=
          (if d.is_default then clearDefaults uid db.collections else db.collections) ++
            [{ id := db.next_id, user_id := uid, name := d.name
               description := d.description, color := d.color
               is_default := d.is_default, created_at := db.now }]
        next_id := db.next_id + 1 })

/-- `get_collection` (wishlist_collections.py:136-163): the `select` filters
on both the id and `user_id == current_user.id`, so another user's
collection is reported absent. -/
def get_collection (db : DB) (uid cid : Nat) : Except ApiError CollectionRec :=
  match db.collections.find? (fun c => c.id == cid && c.user_id == uid) with
  | none => .error (.resourceNotFound "Collection not found")
  | some col => .ok col

/-- The name-conflict pre-check of `update_collection`
(wishlist_collections.py:195-209): only when the payload sets a (truthy)
name different from the current one. -/
def collectionNameConflict (db : DB) (uid cid : Nat) (col : CollectionRec)
    (d : WishlistCollectionUpdate) : Bool :=
  match d.name with
  | some n =>
    n != "" && n != col.name &&
      (db.collections.find? (fun c =>
        c.user_id == uid && c.name == n && c.id != cid)).isSome
  | none => false

/-- `update_collection` (wishlist_collections.py:166-234): load (owner
filtered), name-conflict check, clear competing defaults when
`collection_data.is_default` is truthy, then apply the set fields. -/
def update_collection (db : DB) (uid cid : Nat) (d : WishlistCollectionUpdate) :
    Except ApiError (CollectionRec × DB) :=
  match db.collections.find? (fun c => c.id == cid && c.user_id == uid) with
  | none => .error (.resourceNotFound "Collection not found")
  | some col =>
    if collectionNameConflict db uid cid col d then
      .error (.conflictError "Collection with this name already exists")
    else if d.is_default = some true then
      .ok (applyCollectionUpdate col d,
        { db with collections :=
            ((clearDefaultsExcept uid cid db.collections).map
              (replaceFn cid (applyCollectionUpdate col d))) })
    else
      .ok (applyCollectionUpdate col d,
        { db with collections :=
            (db.collections.map
              (replaceFn cid (applyCollectionUpdate col d))) })

/-- `delete_collection` (wishlist_collections.py:237-275): owner-filtered
load, last-collection guard, then `db.delete(collection)` whose ORM cascade
removes the collection's items and, transitively, their price history. -/
def delete_collection (db : DB) (uid cid : Nat) : Except ApiError DB :=
  match db.collections.find? (fun c => c.id == cid && c.user_id == uid) with
  | none => .error (.resourceNotFound "Collection not found")
  | some _ =>
    if (db.collections.filter (fun c => c.user_id == uid)).length ≤ 1 then
      .error (.conflictError "Cannot delete the last remaining collection")
    else
      .ok { db with
        collections := db.collections.filter (fun c => c.id != cid)
        items := db.items.filter (fun i => i.collection_id != cid)
        price_history := db.price_history.filter (fun p =>
          !(db.items.any (fun i => i.collection_id == cid && i.id == p.wishlist_item_id))) }

/-- `set_default_collection` (wishlist_collections.py:278-320): owner-filtered
load, clear every default of the owner, then set the loaded row's flag. -/
def set_default_collection (db : DB) (uid cid : Nat) :
    Except ApiError (CollectionRec × DB) :=
  match db.collections.find? (fun c => c.id == cid && c.user_id == uid) with
  | none => .error (.resourceNotFound "Collection not found")
  | some col =>
    .ok ({ col with is_default := true },
      { db with collections :=
          ((clearDefaults uid db.collections).map
            (replaceFn cid { col with is_default := true })) })

/-! ## Wishlist item routes (`app/routes/wishlist.py`) -/

/-- `WishlistItemCreate` (schemas/wishlist.py:15-37); pydantic defaults
`currency` to `"USD"`. -/
structure WishlistItemCreate : Type where
  title : String
  product_url : Option String
  initial_price : Int
  currency : String
  collection_id : Nat
deriving DecidableEq, Repr

/-- `WishlistItemUpdate` (schemas/wishlist.py:40-56): only `title`,
`product_url`, `current_price` and `collection_id` exist on the update
schema — neither `initial_price` nor `currency` can appear in a payload.
`none` models a field left unset (pydantic `exclude_unset`). -/
structure WishlistItemUpdate : Type where
  title : Option String
  product_url : Option String
  current_price : Option Int
  collection_id : Option Nat
deriving DecidableEq, Repr

/-- The `setattr` loop of `update_wishlist_item` over
`model_dump(exclude_unset=True)`. -/
def applyItemUpdate (i : ItemRec) (d : WishlistItemUpdate) : ItemRec :=
  let i := match d.title with | some v => { i with title := v } | none => i
  let i := match d.product_url with | some v => { i with product_url := some v } | none => i
  let i := match d.current_price with | some v => { i with current_price := v } | none => i
  match d.collection_id with | some v => { i with collection_id := v } | none => i

/-- `create_wishlist_item` (wishlist.py:80-137): owner-filtered collection
check, insert of the item with `current_price = initial_price`, then a
second commit inserting the seed `PriceHistory` row. `dt` is the clock
advance between the two `utcnow` reads (the seed row is stamped at
`db.now + dt`). -/
def create_wishlist_item (db : DB) (uid : Nat) (d : WishlistItemCreate)
    (dt : Nat) : Except ApiError (ItemRec × DB) :=
  match db.collections.find? (fun c => c.id == d.collection_id && c.user_id == uid) with
  | none => .error (.resourceNotFound "Collection not found")
  | some _ =>
    let item : ItemRec :=
      { id := db.next_id, user_id := uid, collection_id := d.collection_id
        title := d.title, product_url := d.product_url
        initial_price := d.initial_price, current_price := d.initial_price
        currency := if d.currency = "" then "USD" else d.currency
        created_at := db.now }
    let entry : PriceRec :=
      { id := db.next_id + 1, wishlist_item_id := item.id
        price := item.initial_price, checked_at := db.now + dt }
    .ok (item,
      { db with items := db.items ++ [item]
                price_history := db.price_history ++ [entry]
                next_id := db.next_id + 2, now := db.now + dt })

/-- `get_wishlist_item` (wishlist.py:140-172): loads by id alone, then 404 if
absent and 403 (`AuthorizationError`) if owned by someone else. -/
def get_wishlist_item (db : DB) (uid item_id : Nat) : Except ApiError ItemRec :=
  match db.items.find? (fun i => i.id == item_id) with
  | none => .error (.resourceNotFound "Wishlist item not found")
  | some item =>
    if item.user_id != uid then
      .error (.authorizationError "You don't have permission to access this item")
    else .ok item

/-- The ownership pre-check of `update_wishlist_item` for a moved item
(wishlist.py:209-222): only when `item_data.collection_id` is truthy and
differs from the current collection. -/
def movedCollectionMissing (db : DB) (uid : Nat) (item : ItemRec)
    (d : WishlistItemUpdate) : Bool :=
  match d.collection_id with
  | some cid =>
    cid != 0 && cid != item.collection_id &&
      (db.collections.find? (fun c => c.id == cid && c.user_id == uid)).isNone
  | none => false

/-- `update_wishlist_item` (wishlist.py:175-235): load by id, 404/403 checks,
ownership check of a changed target collection (skipped when
`item_data.collection_id` is falsy or unchanged), then the `setattr` loop.
No `PriceHistory` row is written. -/
def update_wishlist_item (db : DB) (uid item_id : Nat) (d : WishlistItemUpdate) :
    Except ApiError (ItemRec × DB) :=
  match db.items.find? (fun i => i.id == item_id) with
  | none => .error (.resourceNotFound "Wishlist item not found")
  | some item =>
    if item.user_id != uid then
      .error (.authorizationError "You don't have permission to update this item")
    else if movedCollectionMissing db uid item d then
      .error (.resourceNotFound "Collection not found")
    else
      .ok (applyItemUpdate item d,
        { db with items :=
            db.items.map (fun i => if i.id == item_id then applyItemUpdate item d else i) })

/-- `delete_wishlist_item` (wishlist.py:238-268): load by id, 404/403 checks,
then `db.delete(item)` whose ORM cascade removes the item's price history. -/
def delete_wishlist_item (db : DB) (uid item_id : Nat) : Except ApiError DB :=
  match db.items.find? (fun i => i.id == item_id) with
  | none => .error (.resourceNotFound "Wishlist item not found")
  | some item =>
    if item.user_id != uid then
      .error (.authorizationError "You don't have permission to delete this item")
    else
      .ok { db with
        items := db.items.filter (fun i => i.id != item_id)
        price_history := db.price_history.filter (fun p => p.wishlist_item_id != item_id) }

/-- Insert a row into a list kept newest-first by `checked_at`. -/
def insertNewest (q : PriceRec) : List PriceRec → List PriceRec
  | [] => [q]
  | r :: rs => if q.checked_at ≥ r.checked_at then q :: r :: rs else r :: insertNewest q rs

/-- `order_by(desc(PriceHistory.checked_at))`: insertion sort, newest
first. -/
def sortNewestFirst : List PriceRec → List PriceRec
  | [] => []
  | p :: rest => insertNewest p (sortNewestFirst rest)

/-- `get_item_price_history` (wishlist.py:271-318) — the handler that
actually serves `GET /wishlist/{item_id}/price-history`, since
`app/main.py` includes `wishlist.router` before `price_history.router`:
load by id, 404/403 checks, then the item's history newest first. -/
def get_item_price_history (db : DB) (uid item_id : Nat) :
    Except ApiError (List PriceRec) :=
  match db.items.find? (fun i => i.id == item_id) with
  | none => .error (.resourceNotFound "Wishlist item not found")
  | some item =>
    if item.user_id != uid then
      .error (.authorizationError "You don't have permission to access this item")
    else
      .ok (sortNewestFirst (db.price_history.filter (fun p => p.wishlist_item_id == item_id)))

/-! ## Price-history routes (`app/routes/price_history.py`) -/

/-- The `try/except` wrapper of both price_history.py handlers:
`except HTTPException: raise` re-raises `HTTPException` untouched, and
`except Exception: raise HTTPException(500, detail)` converts every other
exception — including the `WishlistAPIException` subclasses, which do not
derive from `HTTPException` — into a 500. -/
def catchToHttp500 (detail : String) : Except ApiError α → Except ApiError α
  | .ok v => .ok v
  | .error (.httpException code m) => .error (.httpException code m)
  | .error _ => .error (.httpException 500 detail)

/-- `get_price_history` (price_history.py:30-86): owner-filtered load, 404 if
absent, newest-first history — all inside the `catchToHttp500` wrapper. -/
def get_price_history (db : DB) (uid item_id : Nat) :
    Except ApiError (List PriceRec) :=
  catchToHttp500 "Failed to retrieve price history" <|
    match db.items.find? (fun i => i.id == item_id && i.user_id == uid) with
    | none => .error (.resourceNotFound "Wishlist item not found")
    | some _ =>
      .ok (sortNewestFirst (db.price_history.filter (fun p => p.wishlist_item_id == item_id)))

/-- `create_price_history_entry` (price_history.py:89-151): owner-filtered
load, 404 if absent, insert of the manual `PriceHistory` row — all inside
the `catchToHttp500` wrapper, which also rolls back on error. -/
def create_price_history_entry (db : DB) (uid item_id : Nat) (price : Int) :
    Except ApiError (PriceRec × DB) :=
  catchToHttp500 "Failed to create price history entry" <|
    match db.items.find? (fun i => i.id == item_id && i.user_id == uid) with
    | none => .error (.resourceNotFound "Wishlist item not found")
    | some _ =>
      let entry : PriceRec :=
        { id := db.next_id, wishlist_item_id := item_id
          price := price, checked_at := db.now }
      .ok (entry,
        { db with price_history := db.price_history ++ [entry], next_id := db.next_id + 1 })

/-! ## The operations as one step machine

Every state-bearing handler, as the single transition function `applyOp`.
Read-only handlers are included (returning the unchanged `DB`) so that
claims quantifying over "every request" range over them too. -/

/-- One authenticated API operation (the caller `uid` is the user already
resolved by `get_current_user`; `register` is the only unauthenticated
one). -/
inductive Op : Type
  | register (email password : String) (salt : Nat)
  | createCol (uid : Nat) (d : WishlistCollectionCreate)
  | getCol (uid cid : Nat)
  | updateCol (uid cid : Nat) (d : WishlistCollectionUpdate)
  | deleteCol (uid cid : Nat)
  | setDefaultCol (uid cid : Nat)
  | createItem (uid : Nat) (d : WishlistItemCreate) (dt : Nat)
  | getItem (uid item_id : Nat)
  | updateItem (uid item_id : Nat) (d : WishlistItemUpdate)
  | deleteItem (uid item_id : Nat)
  | getItemHistory (uid item_id : Nat)
  | createPriceEntry (uid item_id : Nat) (price : Int)
deriving DecidableEq, Repr

/-- Run one operation against the store; the result is the post-state (an
error models the aborted transaction, so the pre-state survives). -/
def applyOp (op : Op) (db : DB) : Except ApiError DB :=
  match op with
  | .register email password salt => (register_user db email password salt).map (·.2)
  | .createCol uid d => (create_collection db uid d).map (·.2)
  | .getCol uid cid => (get_collection db uid cid).map (fun _ => db)
  | .updateCol uid cid d => (update_collection db uid cid d).map (·.2)
  | .deleteCol uid cid => delete_collection db uid cid
  | .setDefaultCol uid cid => (set_default_collection db uid cid).map (·.2)
  | .createItem uid d dt => (create_wishlist_item db uid d dt).map (·.2)
  | .getItem uid item_id => (get_wishlist_item db uid item_id).map (fun _ => db)
  | .updateItem uid item_id d => (update_wishlist_item db uid item_id d).map (·.2)
  | .deleteItem uid item_id => delete_wishlist_item db uid item_id
  | .getItemHistory uid item_id => (get_item_price_history db uid item_id).map (fun _ => db)
  | .createPriceEntry uid item_id price =>
    (create_price_history_entry db uid item_id price).map (·.2)

/-- The kind of row an id-targeted request addresses. -/
inductive TargetKind : Type
  | item
  | collection
deriving DecidableEq, Repr

/-- For the read/update/delete requests that address one resource by numeric
id: the caller, the kind of target and the id. (`getItemHistory` reads the
price-history entries of the addressed item, so an item target stands for
the item and its `PriceHistory` rows.) Creations return `none`. -/
def Op.rudTarget : Op → Option (Nat × TargetKind × Nat)
  | .getItem uid i => some (uid, .item, i)
  | .updateItem uid i _ => some (uid, .item, i)
  | .deleteItem uid i => some (uid, .item, i)
  | .getItemHistory uid i => some (uid, .item, i)
  | .getCol uid c => some (uid, .collection, c)
  | .updateCol uid c _ => some (uid, .collection, c)
  | .deleteCol uid c => some (uid, .collection, c)
  | .setDefaultCol uid c => some (uid, .collection, c)
  | _ => none

/-- The owner (`user_id`) of the row with the given id, if any. -/
def ownerOf (db : DB) : TargetKind → Nat → Option Nat
  | .item, i => (db.items.find? (fun x => x.id == i)).map (·.user_id)
  | .collection, c => (db.collections.find? (fun x => x.id == c)).map (·.user_id)

/-- Well-formedness of a store: primary keys are pairwise distinct and every
allocated id (and every `wishlist_item_id` reference) is below the id
sequence. Every reachable state of the application satisfies this; the
theorems that need it take it as a hypothesis. -/
def DB.WF (db : DB) : Prop :=
  db.users.Pairwise (fun a b => a.id ≠ b.id) ∧
  db.collections.Pairwise (fun a b => a.id ≠ b.id) ∧
  db.items.Pairwise (fun a b => a.id ≠ b.id) ∧
  (∀ u ∈ db.users, u.id < db.next_id) ∧
  (∀ c ∈ db.collections, c.id < db.next_id) ∧
  (∀ i ∈ db.items, i.id < db.next_id) ∧
  (∀ p ∈ db.price_history, p.wishlist_item_id < db.next_id)

instance (db : DB) : Decidable db.WF := by
  unfold DB.WF
  infer_instance

/-- Collections of `u` flagged as default. -/
def defaultsOf (db : DB) (u : Nat) : List CollectionRec :=
  db.collections.filter (fun c => c.user_id == u && c.is_default)

/-- The default-exclusivity invariant for one user. -/
def atMostOneDefault (db : DB) (u : Nat) : Prop :=
  (defaultsOf db u).length ≤ 1

instance (db : DB) (u : Nat) : Decidable (atMostOneDefault db u) := by
  unfold atMostOneDefault
  infer_instance

/-- Number of collections owned by `u`. -/
def collectionCount (db : DB) (u : Nat) : Nat :=
  (db.collections.filter (fun c => c.user_id == u)).length

/-- Whether a stored hash is a well-formed bcrypt hash (i.e. something
`hash_password` can produce). -/
def HashStr.isBcryptHash : HashStr → Bool
  | .bcrypt _ _ => true
  | .malformed _ => false

/-- Whether an exception is `AuthenticationError`. -/
def ApiError.isAuthFailure : ApiError → Bool
  | .authenticationError _ => true
  | _ => false

/-- The user a guard outcome resolved, if any. -/
def resultUser : Except ApiError UserRec → Option UserRec
  | .ok u => some u
  | .error _ => none

/-- Whether a guard outcome is an `AuthenticationError`. -/
def resultAuthFailure (r : Except ApiError UserRec) : Bool :=
  match r with
  | .error e => e.isAuthFailure
  | .ok _ => false

/-! ## Concrete states used as witnesses and counterexamples -/

/-- The store right after `init_db`: empty. -/
def dbEmpty : DB :=
  { users := [], collections := [], items := [], price_history := [], next_id := 1, now := 0 }

/-- User 1, owning nothing. -/
def u1 : UserRec :=
  { id := 1, email := "a@x.com", hashed_password := hash_password "password123" 0 }

/-- User 2, the owner of the sample collection/item/history below. -/
def u2 : UserRec :=
  { id := 2, email := "b@x.com", hashed_password := hash_password "password456" 0 }

/-- User 2's (default) collection. -/
def col3 : CollectionRec :=
  { id := 3, user_id := 2, name := "My Wishlist", description := none, color := none
    is_default := true, created_at := 0 }

/-- User 2's wishlist item, in `col3`. -/
def item4 : ItemRec :=
  { id := 4, user_id := 2, collection_id := 3, title := "X", product_url := none
    initial_price := 1000, current_price := 1000, currency := "USD", created_at := 0 }

/-- The seed price-history row of `item4`. -/
def price5 : PriceRec :=
  { id := 5, wishlist_item_id := 4, price := 1000, checked_at := 0 }

/-- Two users; user 2 owns one collection with one item and its seed price
row, user 1 owns nothing: the cross-owner access scenario. -/
def db3 : DB :=
  { users := [u1, u2], collections := [col3], items := [item4]
    price_history := [price5], next_id := 6, now := 1 }

/-- A second, non-default collection of user 2. -/
def col6 : CollectionRec :=
  { id := 6, user_id := 2, name := "Second", description := none, color := none
    is_default := false, created_at := 1 }

/-- Like `db3` but user 2 owns two collections, so `col3` is deletable. -/
def db5 : DB :=
  { users := [u1, u2], collections := [col3, col6], items := [item4]
    price_history := [price5], next_id := 7, now := 1 }

/-- A token for user 1, issued at time 0 under secret `"k"` with the default
30-minute TTL. -/
def tokA : Token := create_access_token "k" "a@x.com" 0 30

/-- A creation payload for a new item of user 2 in `col3`. -/
def dW : WishlistItemCreate :=
  { title := "Y", product_url := none, initial_price := 500, currency := "USD"
    collection_id := 3 }

/-- The item `create_wishlist_item db3 2 dW 2` inserts. -/
def itemW : ItemRec :=
  { id := 6, user_id := 2, collection_id := 3, title := "Y", product_url := none
    initial_price := 500, current_price := 500, currency := "USD", created_at := 1 }

/-- The seed price row `create_wishlist_item db3 2 dW 2` inserts. -/
def entryW : PriceRec :=
  { id := 7, wishlist_item_id := 6, price := 500, checked_at := 3 }

/-- The store after `create_wishlist_item db3 2 dW 2`. -/
def dbW : DB :=
  { users := [u1, u2], collections := [col3], items := [item4, itemW]
    price_history := [price5, entryW], next_id := 8, now := 3 }

/-- The store after `delete_collection db5 2 3` (cascade: `item4` and
`price5` go with `col3`). -/
def db5del : DB :=
  { db5 with collections := [col6], items := [], price_history := [] }

/-- `col6` flagged as default. -/
def col6d : CollectionRec := { col6 with is_default := true }

/-- The store after `set_default_collection db5 2 6`. -/
def db5d : DB :=
  { db5 with collections := [{ col3 with is_default := false }, col6d] }

/-- An update payload that only sets `current_price` (to 8.00). -/
def d10 : WishlistItemUpdate :=
  { title := none, product_url := none, current_price := some 800
    collection_id := none }

/-- `item4` after the `d10` update. -/
def item4u : ItemRec := { item4 with current_price := 800 }

/-- The store after `update_wishlist_item db3 2 4 d10`. -/
def db3u : DB := { db3 with items := [item4u] }

/-! ## Helper lemmas -/

/-- A find by id alone that hits a row of owner `B ≠ A` forces the
owner-filtered find of user `A` to miss, given pairwise-distinct ids. -/
theorem collections_find_owner_none {l : List CollectionRec} {cid A : Nat}
    {c : CollectionRec}
    (hpw : l.Pairwise (fun a b => a.id ≠ b.id))
    (hfind : l.find? (fun x => x.id == cid) = some c)
    (hne : c.user_id ≠ A) :
    l.find? (fun x => x.id == cid && x.user_id == A) = none := by
  rw [List.find?_eq_none]
  intro x hx hpred
  have hcid : c.id = cid := by
    have := List.find?_some hfind
    simpa using this
  have hcmem : c ∈ l := List.mem_of_find?_eq_some hfind
  have hxid : x.id = cid ∧ x.user_id = A := by simpa using hpred
  by_cases hxc : x = c
  · exact hne (hxc ▸ hxid.2)
  · have : x.id ≠ c.id := by
      have hsymm : Symmetric (fun a b : CollectionRec => a.id ≠ b.id) :=
        fun a b h => h.symm
      exact List.Pairwise.forall hsymm hpw hx hcmem hxc
    exact this (hxid.1.trans hcid.symm)

/-! ## C7: token round-trip and expiry -/

/-- **C7** (confirmed). A token issued for a subject decodes to exactly that
subject immediately after issuance; strictly after the TTL window it fails
to decode and `is_token_expired` reports true; and any token that fails to
verify is reported expired (fail-closed). -/
theorem token_roundtrip_expiry
    (secret sub : String) (now ttl t : Int) (tok : Token)
    (h0 : 0 ≤ ttl) (ht : now + ttl * 60 < t)
    (htok : verify_token secret t tok = none) :
    decode_token secret now (create_access_token secret sub now ttl) = some sub ∧
    is_token_expired secret t (create_access_token secret sub now ttl) = true ∧
    decode_token secret t (create_access_token secret sub now ttl) = none ∧
    is_token_expired secret t tok = true := by
  have h60 : 0 ≤ ttl * 60 := by positivity
  have hnotlt : ¬(now + ttl * 60 < now) := by omega
  refine ⟨?_, ?_, ?_, ?_⟩
  · simp [decode_token, verify_token, joseDecode, create_access_token, hnotlt]
  · simp [is_token_expired, verify_token, joseDecode, create_access_token, ht]
  · simp [decode_token, verify_token, joseDecode, create_access_token, ht]
  · simp [is_token_expired, htok]

/-- Witness for C7 at concrete inputs: secret `"k"`, subject `"a@x.com"`,
issued at 0 with 30-minute TTL, checked at 1801 s, plus a garbage token. -/
theorem token_roundtrip_expiry_witness :
    decode_token "k" 0 (create_access_token "k" "a@x.com" 0 30) = some "a@x.com" ∧
    is_token_expired "k" 1801 (create_access_token "k" "a@x.com" 0 30) = true ∧
    decode_token "k" 1801 (create_access_token "k" "a@x.com" 0 30) = none ∧
    is_token_expired "k" 1801 (.malformed "junk") = true :=
  token_roundtrip_expiry "k" "a@x.com" 0 30 1801 (.malformed "junk")
    (by norm_num) (by norm_num) rfl

/-! ## C9: `verify_password` on malformed hashes -/

/-- **C9** (counterexample). `verify_password` does not return false on a
malformed hash: passlib's `CryptContext.verify` raises `UnknownHashError`
for a string matching no configured scheme, and `verify_password` adds no
handling, so the call throws. -/
theorem verify_password_throws_on_malformed :
    verify_password "any-password" (.malformed "not-a-bcrypt-hash") =
      .error .unknownHash := rfl

/-- **C9** (amended). On every well-formed bcrypt hash — in particular any
output of `hash_password` — `verify_password` returns a boolean and never
throws, and when every stored hash is well-formed (as registration
guarantees) the login handler's `except Exception` 500 branch is
unreachable. -/
theorem verify_password_wellformed_total
    (pw p : String) (salt : Nat) (db : DB) (secret : String) (m : Int)
    (email password : String)
    (hwf : ∀ u ∈ db.users, u.hashed_password.isBcryptHash = true) :
    verify_password pw (hash_password p salt) = .ok (pw == p) ∧
    login_user db secret m email password ≠
      .error (.httpException 500 "Authentication failed") := by
  refine ⟨rfl, ?_⟩
  unfold login_user
  cases hfind : db.users.find? (fun u => u.email == email) with
  | none => simp
  | some user =>
    have hmem := List.mem_of_find?_eq_some hfind
    have hb := hwf user hmem
    cases huser : user.hashed_password with
    | malformed s => rw [huser] at hb; simp [HashStr.isBcryptHash] at hb
    | bcrypt s q =>
      simp only [verify_password, cryptContextVerify, huser]
      cases hpq : password == q <;> simp

/-- Witness for C9's amended statement on `db3` (whose two users both carry
`hash_password` outputs). -/
theorem verify_password_wellformed_total_witness :
    verify_password "a" (hash_password "b" 0) = .ok false ∧
    login_user db3 "k" 30 "a@x.com" "wrongpass" ≠
      .error (.httpException 500 "Authentication failed") :=
  verify_password_wellformed_total "a" "b" 0 db3 "k" 30 "a@x.com" "wrongpass"
    (by decide)

/-! ## C8: the required-mode guard -/

/-- **C8** (counterexample). With the authorization header absent, the guard
does not raise `AuthenticationError` (as the claim's "if and only if"
requires): FastAPI's `HTTPBearer` security scheme rejects the request first
with an `HTTPException` of status 403. -/
theorem guard_absent_header_not_auth_error :
    get_current_user db3 "k" none = .error (.httpException 403 "Not authenticated") ∧
    resultAuthFailure (get_current_user db3 "k" none) = false ∧
    (ApiError.httpException 403 "Not authenticated").isAuthFailure = false :=
  ⟨rfl, rfl, rfl⟩

/-- **C8** (amended). For a presented bearer token, `get_current_user`
raises `AuthenticationError` exactly when decoding fails (structurally
invalid, signature-invalid or expired token) or the decoded subject matches
no user, and otherwise returns precisely the user record found by the
subject email; an absent header is rejected with the 403 `HTTPException` of
the security scheme instead. -/
theorem guard_required_semantics (db : DB) (secret : String) (tok : Token) :
    get_current_user db secret none = .error (.httpException 403 "Not authenticated") ∧
    resultAuthFailure (get_current_user db secret (some ("Bearer", some tok))) =
      ((decode_token secret (db.now : Int) tok).bind
        (fun email => db.users.find? (fun u => u.email == email))).isNone ∧
    resultUser (get_current_user db secret (some ("Bearer", some tok))) =
      (decode_token secret (db.now : Int) tok).bind
        (fun email => db.users.find? (fun u => u.email == email)) := by
  refine ⟨rfl, ?_, ?_⟩ <;>
  · cases hdec : decode_token secret (db.now : Int) tok with
    | none =>
      simp [get_current_user, httpBearerExtract, hdec, schemeIsBearer,
        resultAuthFailure, resultUser, ApiError.isAuthFailure]
    | some email =>
      cases hfind : db.users.find? (fun u => u.email == email) with
      | none =>
        simp [get_current_user, httpBearerExtract, hdec, hfind, schemeIsBearer,
          resultAuthFailure, resultUser, ApiError.isAuthFailure]
      | some user =>
        simp [get_current_user, httpBearerExtract, hdec, hfind, schemeIsBearer,
          resultAuthFailure, resultUser, ApiError.isAuthFailure]

/-! ## C3: price-history routes on absent or cross-owner items -/

/-- **C3** (code bug, evaluated at the failing inputs). In `db3` item 4
belongs to user 2; for caller user 1 — and likewise for the absent id 99 —
both price_history.py handlers raise `ResourceNotFoundError`, but their
generic `except Exception` clause re-raises it as an `HTTPException` with
status 500, not as the 404 their docstrings and tests assert; the POST
path inserts nothing (the error aborts the transaction before any write is
committed, matching its `db.rollback()`). -/
theorem price_history_routes_return_500 :
    get_price_history db3 1 4 =
      .error (.httpException 500 "Failed to retrieve price history") ∧
    create_price_history_entry db3 1 4 500 =
      .error (.httpException 500 "Failed to create price history entry") ∧
    get_price_history db3 1 99 =
      .error (.httpException 500 "Failed to retrieve price history") ∧
    create_price_history_entry db3 1 99 500 =
      .error (.httpException 500 "Failed to create price history entry") ∧
    (ApiError.httpException 500 "Failed to retrieve price history").status ≠ 404 :=
  ⟨rfl, rfl, rfl, rfl, by decide⟩

/-! ## C4: at least one collection per user -/

/-- **C4** (counterexample). Registering a fresh user on the empty store
succeeds (the new user gets id 1) and leaves the user with zero
collections: the handler inserts only the `User` row, so "every user owns
≥ 1 collection immediately after registration" fails. -/
theorem registration_creates_no_collection :
    (register_user dbEmpty "a@x.com" "password123" 0).map
      (fun r => (r.1.id, collectionCount r.2 r.1.id)) = .ok (1, 0) := rfl

/-! ## C6: item creation seeds exactly one price-history row -/

/-- **C6** (confirmed). A successful item creation returns an item whose
`current_price` (and `initial_price`) equal the supplied initial price, and
the post-state holds exactly one `PriceHistory` row for the new item: its
price is the initial price and its `checked_at` is at or after the item's
`created_at`. -/
theorem create_item_seeds_one_history_row
    (db : DB) (uid : Nat) (d : WishlistItemCreate) (dt : Nat)
    (item : ItemRec) (db' : DB)
    (hwf : db.WF) (h : create_wishlist_item db uid d dt = .ok (item, db')) :
    item.current_price = d.initial_price ∧
    item.initial_price = d.initial_price ∧
    ∃ entry,
      db'.price_history.filter (fun p => p.wishlist_item_id == item.id) = [entry] ∧
      entry.price = d.initial_price ∧ item.created_at ≤ entry.checked_at := by
  unfold create_wishlist_item at h
  split at h
  · exact absurd h (by simp)
  · rw [Except.ok.injEq, Prod.mk.injEq] at h
    obtain ⟨hitem, hdb⟩ := h
    subst hitem hdb
    refine ⟨rfl, rfl, ?_⟩
    refine ⟨{ id := db.next_id + 1, wishlist_item_id := db.next_id
              price := d.initial_price, checked_at := db.now + dt }, ?_, rfl, by simp⟩
    have hold : db.price_history.filter
        (fun p => p.wishlist_item_id == db.next_id) = [] := by
      rw [List.filter_eq_nil_iff]
      intro p hp
      have := hwf.2.2.2.2.2.2 p hp
      simp only [beq_iff_eq]
      omega
    simp [List.filter_append, hold]

/-- Witness for C6: creating item `dW` for user 2 in `db3`. -/
theorem create_item_seeds_one_history_row_witness :
    itemW.current_price = dW.initial_price ∧
    itemW.initial_price = dW.initial_price ∧
    ∃ entry,
      dbW.price_history.filter (fun p => p.wishlist_item_id == itemW.id) = [entry] ∧
      entry.price = dW.initial_price ∧ itemW.created_at ≤ entry.checked_at :=
  create_item_seeds_one_history_row db3 2 dW 2 itemW dbW (by decide) rfl

/-! ## C10: item updates are framed -/

/-- **C10** (confirmed). A successful item update keeps every field absent
from the payload at its previous value; `initial_price` and `currency` are
unchanged unconditionally (the update schema has no such fields), present
fields take the payload value, and the price-history table is untouched. -/
theorem item_update_frame
    (db : DB) (uid item_id : Nat) (d : WishlistItemUpdate)
    (item0 item' : ItemRec) (db' : DB)
    (hfind : db.items.find? (fun i => i.id == item_id) = some item0)
    (h : update_wishlist_item db uid item_id d = .ok (item', db')) :
    item'.initial_price = item0.initial_price ∧
    item'.currency = item0.currency ∧
    item'.id = item0.id ∧
    item'.user_id = item0.user_id ∧
    item'.created_at = item0.created_at ∧
    item'.title = d.title.getD item0.title ∧
    item'.product_url = (d.product_url.map some).getD item0.product_url ∧
    item'.current_price = d.current_price.getD item0.current_price ∧
    item'.collection_id = d.collection_id.getD item0.collection_id ∧
    db'.price_history = db.price_history := by
  unfold update_wishlist_item at h
  split at h
  next heq => rw [heq] at hfind; exact absurd hfind (by simp)
  next item heq =>
    rw [heq, Option.some.injEq] at hfind
    subst hfind
    split at h
    · exact absurd h (by simp)
    · split at h
      · exact absurd h (by simp)
      · rw [Except.ok.injEq, Prod.mk.injEq] at h
        obtain ⟨hitem, hdb⟩ := h
        subst hitem hdb
        obtain ⟨dt, du, dc, dci⟩ := d
        cases dt <;> cases du <;> cases dc <;> cases dci <;>
          simp [applyItemUpdate]

/-- Witness for C10: user 2 updates only `current_price` of `item4`. -/
theorem item_update_frame_witness :
    item4u.initial_price = item4.initial_price ∧
    item4u.currency = item4.currency ∧
    item4u.id = item4.id ∧
    item4u.user_id = item4.user_id ∧
    item4u.created_at = item4.created_at ∧
    item4u.title = d10.title.getD item4.title ∧
    item4u.product_url = (d10.product_url.map some).getD item4.product_url ∧
    item4u.current_price = d10.current_price.getD item4.current_price ∧
    item4u.collection_id = d10.collection_id.getD item4.collection_id ∧
    db3u.price_history = db3.price_history :=
  item_update_frame db3 2 4 d10 item4 item4u db3u rfl rfl

/-! ## C1: ownership isolation -/

/-- **C1** (confirmed). Every id-targeted read/update/delete request by an
authenticated user `A` against a Collection, Item (or the item's
price-history) owned by a different user `B` fails with an error of status
403 or 404; the error aborts the transaction, so `B`'s data is unchanged
(the pre-state is kept), and no data is returned. -/
theorem ownership_isolation
    (db : DB) (op : Op) (A : Nat) (kind : TargetKind) (rid B : Nat)
    (hwf : db.WF) (htarget : op.rudTarget = some (A, kind, rid))
    (howner : ownerOf db kind rid = some B) (hne : B ≠ A) :
    ∃ e, applyOp op db = .error e ∧ (e.status = 403 ∨ e.status = 404) := by
  cases op with
  | register email password salt => simp [Op.rudTarget] at htarget
  | createCol uid d => simp [Op.rudTarget] at htarget
  | createItem uid d dt => simp [Op.rudTarget] at htarget
  | createPriceEntry uid item_id price => simp [Op.rudTarget] at htarget
  | getItem uid i =>
    simp only [Op.rudTarget, Option.some.injEq, Prod.mk.injEq] at htarget
    obtain ⟨rfl, rfl, rfl⟩ := htarget
    simp only [ownerOf] at howner
    cases hfind : db.items.find? (fun x => x.id == i) with
    | none => rw [hfind] at howner; simp at howner
    | some item =>
      rw [hfind] at howner
      simp only [Option.map_some', Option.some.injEq] at howner
      refine ⟨.authorizationError "You don't have permission to access this item",
        ?_, Or.inl rfl⟩
      simp [applyOp, Except.map, get_wishlist_item, hfind, howner, hne]
  | updateItem uid i d =>
    simp only [Op.rudTarget, Option.some.injEq, Prod.mk.injEq] at htarget
    obtain ⟨rfl, rfl, rfl⟩ := htarget
    simp only [ownerOf] at howner
    cases hfind : db.items.find? (fun x => x.id == i) with
    | none => rw [hfind] at howner; simp at howner
    | some item =>
      rw [hfind] at howner
      simp only [Option.map_some', Option.some.injEq] at howner
      refine ⟨.authorizationError "You don't have permission to update this item",
        ?_, Or.inl rfl⟩
      simp [applyOp, Except.map, update_wishlist_item, hfind, howner, hne]
  | deleteItem uid i =>
    simp only [Op.rudTarget, Option.some.injEq, Prod.mk.injEq] at htarget
    obtain ⟨rfl, rfl, rfl⟩ := htarget
    simp only [ownerOf] at howner
    cases hfind : db.items.find? (fun x => x.id == i) with
    | none => rw [hfind] at howner; simp at howner
    | some item =>
      rw [hfind] at howner
      simp only [Option.map_some', Option.some.injEq] at howner
      refine ⟨.authorizationError "You don't have permission to delete this item",
        ?_, Or.inl rfl⟩
      simp [applyOp, Except.map, delete_wishlist_item, hfind, howner, hne]
  | getItemHistory uid i =>
    simp only [Op.rudTarget, Option.some.injEq, Prod.mk.injEq] at htarget
    obtain ⟨rfl, rfl, rfl⟩ := htarget
    simp only [ownerOf] at howner
    cases hfind : db.items.find? (fun x => x.id == i) with
    | none => rw [hfind] at howner; simp at howner
    | some item =>
      rw [hfind] at howner
      simp only [Option.map_some', Option.some.injEq] at howner
      refine ⟨.authorizationError "You don't have permission to access this item",
        ?_, Or.inl rfl⟩
      simp [applyOp, Except.map, get_item_price_history, hfind, howner, hne]
  | getCol uid i =>
    simp only [Op.rudTarget, Option.some.injEq, Prod.mk.injEq] at htarget
    obtain ⟨rfl, rfl, rfl⟩ := htarget
    simp only [ownerOf] at howner
    cases hfind : db.collections.find? (fun x => x.id == i) with
    | none => rw [hfind] at howner; simp at howner
    | some col =>
      rw [hfind] at howner
      simp only [Option.map_some', Option.some.injEq] at howner
      have hnone := collections_find_owner_none hwf.2.1 hfind
        (by rw [howner]; exact hne)
      refine ⟨.resourceNotFound "Collection not found", ?_, Or.inr rfl⟩
      simp [applyOp, Except.map, get_collection, hnone]
  | updateCol uid i d =>
    simp only [Op.rudTarget, Option.some.injEq, Prod.mk.injEq] at htarget
    obtain ⟨rfl, rfl, rfl⟩ := htarget
    simp only [ownerOf] at howner
    cases hfind : db.collections.find? (fun x => x.id == i) with
    | none => rw [hfind] at howner; simp at howner
    | some col =>
      rw [hfind] at howner
      simp only [Option.map_some', Option.some.injEq] at howner
      have hnone := collections_find_owner_none hwf.2.1 hfind
        (by rw [howner]; exact hne)
      refine ⟨.resourceNotFound "Collection not found", ?_, Or.inr rfl⟩
      simp [applyOp, Except.map, update_collection, hnone]
  | deleteCol uid i =>
    simp only [Op.rudTarget, Option.some.injEq, Prod.mk.injEq] at htarget
    obtain ⟨rfl, rfl, rfl⟩ := htarget
    simp only [ownerOf] at howner
    cases hfind : db.collections.find? (fun x => x.id == i) with
    | none => rw [hfind] at howner; simp at howner
    | some col =>
      rw [hfind] at howner
      simp only [Option.map_some', Option.some.injEq] at howner
      have hnone := collections_find_owner_none hwf.2.1 hfind
        (by rw [howner]; exact hne)
      refine ⟨.resourceNotFound "Collection not found", ?_, Or.inr rfl⟩
      simp [applyOp, Except.map, delete_collection, hnone]
  | setDefaultCol uid i =>
    simp only [Op.rudTarget, Option.some.injEq, Prod.mk.injEq] at htarget
    obtain ⟨rfl, rfl, rfl⟩ := htarget
    simp only [ownerOf] at howner
    cases hfind : db.collections.find? (fun x => x.id == i) with
    | none => rw [hfind] at howner; simp at howner
    | some col =>
      rw [hfind] at howner
      simp only [Option.map_some', Option.some.injEq] at howner
      have hnone := collections_find_owner_none hwf.2.1 hfind
        (by rw [howner]; exact hne)
      refine ⟨.resourceNotFound "Collection not found", ?_, Or.inr rfl⟩
      simp [applyOp, Except.map, set_default_collection, hnone]

/-- Witness for C1: user 1 requesting user 2's collection 3 in `db3`. -/
theorem ownership_isolation_witness :
    ∃ e, applyOp (.getCol 1 3) db3 = .error e ∧ (e.status = 403 ∨ e.status = 404) :=
  ownership_isolation db3 (.getCol 1 3) 1 .collection 3 2
    (by decide) rfl rfl (by decide)

/-! ## Helper lemmas for the default-exclusivity and cascade proofs -/

/-- A map whose image never satisfies `p` filters to nothing. -/
theorem filter_map_nil {α : Type} (f : α → α) (p : α → Bool) (l : List α)
    (h : ∀ a ∈ l, p (f a) = false) : (l.map f).filter p = [] := by
  rw [List.filter_eq_nil_iff]
  intro x hx
  obtain ⟨a, ha, rfl⟩ := List.mem_map.mp hx
  simp [h a ha]

/-- Filtering commutes with a map that fixes every element it could keep. -/
theorem filter_map_eq {α : Type} (f : α → α) (p : α → Bool) (l : List α)
    (h : ∀ a ∈ l, (p a = false ∧ p (f a) = false) ∨ f a = a) :
    (l.map f).filter p = l.filter p := by
  induction l with
  | nil => rfl
  | cons a t ih =>
    have ht := ih (fun x hx => h x (List.mem_cons_of_mem a hx))
    rcases h a (List.mem_cons_self a t) with ⟨h1, h2⟩ | hfix
    · simp [List.filter_cons, h1, h2, ht]
    · rw [List.map_cons, hfix, List.filter_cons, List.filter_cons, ht]

/-- A mapped filter can only shrink when the map reflects the predicate. -/
theorem filter_map_length_le {α : Type} (f : α → α) (p : α → Bool) (l : List α)
    (h : ∀ a ∈ l, p (f a) = true → p a = true) :
    ((l.map f).filter p).length ≤ (l.filter p).length := by
  induction l with
  | nil => simp
  | cons a t ih =>
    have ht := ih (fun x hx => h x (List.mem_cons_of_mem a hx))
    by_cases hf : p (f a) = true
    · have hp := h a (List.mem_cons_self a t) hf
      simp [List.filter_cons, hf, hp]
      omega
    · rw [Bool.not_eq_true] at hf
      rw [List.map_cons, List.filter_cons, List.filter_cons, hf]
      simp only [Bool.false_eq_true, if_false]
      cases hp : p a <;> simp <;> omega

/-- Pairwise-distinct ids survive any id-preserving map. -/
theorem pairwise_ids_map {α : Type} (key : α → Nat) (f : α → α) (l : List α)
    (hf : ∀ a, key (f a) = key a)
    (hpw : l.Pairwise (fun a b => key a ≠ key b)) :
    (l.map f).Pairwise (fun a b => key a ≠ key b) := by
  rw [List.pairwise_map]
  exact hpw.imp (fun h => by rwa [hf, hf])

/-- A list with pairwise-distinct ids whose members all equal `x` is `[x]`
as soon as `x` is a member. -/
theorem eq_singleton_of_pairwise {α : Type} (key : α → Nat) {m : List α} {x : α}
    (hpw : m.Pairwise (fun a b => key a ≠ key b))
    (hall : ∀ y ∈ m, y = x) (hmem : x ∈ m) : m = [x] := by
  cases m with
  | nil => cases hmem
  | cons y t =>
    have hy : y = x := hall y (List.mem_cons_self y t)
    subst hy
    cases t with
    | nil => rfl
    | cons z t2 =>
      have hz : z = y := hall z (by simp)
      have := (List.pairwise_cons.mp hpw).1 z (by simp)
      exact absurd (hz ▸ rfl) this

/-- A list with pairwise-distinct ids whose members all equal `x` has at
most one element. -/
theorem length_le_one_of_pairwise {α : Type} (key : α → Nat) {m : List α} {x : α}
    (hpw : m.Pairwise (fun a b => key a ≠ key b))
    (hall : ∀ y ∈ m, y = x) : m.length ≤ 1 := by
  cases m with
  | nil => simp
  | cons y t =>
    cases t with
    | nil => simp
    | cons z t2 =>
      have hy : y = x := hall y (by simp)
      have hz : z = x := hall z (by simp)
      have := (List.pairwise_cons.mp hpw).1 z (by simp)
      exact absurd (by rw [hy, hz]) this

/-- `clearFn` keeps the row id. -/
theorem clearFn_id (uid : Nat) (c : CollectionRec) : (clearFn uid c).id = c.id := by
  unfold clearFn; split <;> rfl

/-- `clearFn` keeps the owner. -/
theorem clearFn_user_id (uid : Nat) (c : CollectionRec) :
    (clearFn uid c).user_id = c.user_id := by
  unfold clearFn; split <;> rfl

/-- After `clearFn`, the row is never a default of `uid`. -/
theorem clearFn_not_default (uid : Nat) (c : CollectionRec) :
    ((clearFn uid c).user_id == uid && (clearFn uid c).is_default) = false := by
  unfold clearFn
  by_cases hc : (c.user_id == uid && c.is_default) = true
  · simp only [hc, if_true]; simp
  · rw [Bool.not_eq_true] at hc
    simp only [hc, Bool.false_eq_true, if_false]

/-- `clearFn` fixes rows of other owners. -/
theorem clearFn_fix (uid : Nat) (c : CollectionRec) (h : c.user_id ≠ uid) :
    clearFn uid c = c := by
  unfold clearFn
  have : (c.user_id == uid && c.is_default) = false := by simp [h]
  simp [this]

/-- `clearExFn` keeps the row id. -/
theorem clearExFn_id (uid cid : Nat) (c : CollectionRec) :
    (clearExFn uid cid c).id = c.id := by
  unfold clearExFn; split <;> rfl

/-- `clearExFn` keeps the owner. -/
theorem clearExFn_user_id (uid cid : Nat) (c : CollectionRec) :
    (clearExFn uid cid c).user_id = c.user_id := by
  unfold clearExFn; split <;> rfl

/-- After `clearExFn`, a row that is still a default of `uid` must be the
excluded row `cid`. -/
theorem clearExFn_default_imp (uid cid : Nat) (c : CollectionRec)
    (h : ((clearExFn uid cid c).user_id == uid && (clearExFn uid cid c).is_default) = true) :
    c.id = cid := by
  by_cases hcid : c.id = cid
  · exact hcid
  · exfalso
    have hbne : (c.id != cid) = true := by simpa using hcid
    by_cases hud : (c.user_id == uid && c.is_default) = true
    · have hcond : (c.user_id == uid && c.is_default && c.id != cid) = true := by
        simp [hud, hbne]
      unfold clearExFn at h
      rw [if_pos hcond] at h
      simp at h
    · have hcond : (c.user_id == uid && c.is_default && c.id != cid) = false := by
        rw [Bool.not_eq_true] at hud
        simp [hud]
      unfold clearExFn at h
      rw [if_neg (by simp [hcond])] at h
      exact hud h

/-- `clearExFn` fixes rows of other owners. -/
theorem clearExFn_fix (uid cid : Nat) (c : CollectionRec) (h : c.user_id ≠ uid) :
    clearExFn uid cid c = c := by
  unfold clearExFn
  have : (c.user_id == uid && c.is_default && c.id != cid) = false := by simp [h]
  simp [this]

/-- `replaceFn` keeps the row id whenever the replacement row carries the
replaced id. -/
theorem replaceFn_id (cid : Nat) (x c : CollectionRec) (hx : x.id = cid) :
    (replaceFn cid x c).id = c.id := by
  unfold replaceFn
  by_cases hc : (c.id == cid) = true
  · rw [if_pos hc, hx]; rw [beq_iff_eq] at hc; exact hc.symm
  · rw [if_neg (by simpa using hc)]

/-- `replaceFn` fixes rows with a different id. -/
theorem replaceFn_fix (cid : Nat) (x c : CollectionRec) (h : c.id ≠ cid) :
    replaceFn cid x c = c := by
  unfold replaceFn
  rw [if_neg (by simpa using h)]

/-- `replaceFn` output is either the replacement or the input. -/
theorem replaceFn_cases (cid : Nat) (x c : CollectionRec) :
    replaceFn cid x c = x ∨ replaceFn cid x c = c := by
  unfold replaceFn; split
  · exact Or.inl rfl
  · exact Or.inr rfl

/-- Clearing all defaults of `uid` leaves no default of `uid`. -/
theorem clearDefaults_filter_self (uid : Nat) (l : List CollectionRec) :
    (clearDefaults uid l).filter (fun c => c.user_id == uid && c.is_default) = [] := by
  apply filter_map_nil
  intro c _
  exact clearFn_not_default uid c

/-- `applyCollectionUpdate` never changes the row id. -/
theorem applyCollectionUpdate_id (c : CollectionRec) (d : WishlistCollectionUpdate) :
    (applyCollectionUpdate c d).id = c.id := by
  obtain ⟨n, de, co, df⟩ := d
  cases n <;> cases de <;> cases co <;> cases df <;> simp [applyCollectionUpdate]

/-- `applyCollectionUpdate` never changes the owner. -/
theorem applyCollectionUpdate_user_id (c : CollectionRec) (d : WishlistCollectionUpdate) :
    (applyCollectionUpdate c d).user_id = c.user_id := by
  obtain ⟨n, de, co, df⟩ := d
  cases n <;> cases de <;> cases co <;> cases df <;> simp [applyCollectionUpdate]

/-- `applyCollectionUpdate` sets `is_default` exactly to the payload value
when the payload carries one, else keeps it. -/
theorem applyCollectionUpdate_is_default (c : CollectionRec) (d : WishlistCollectionUpdate) :
    (applyCollectionUpdate c d).is_default = d.is_default.getD c.is_default := by
  obtain ⟨n, de, co, df⟩ := d
  cases n <;> cases de <;> cases co <;> cases df <;> simp [applyCollectionUpdate]

/-- What one successful `set_default_collection` does: the returned row is
the target with the flag set, it is the owner's single default afterwards,
and nothing of other users (nor any other table) changes. -/
theorem set_default_post
    (db : DB) (uid cid : Nat) (col : CollectionRec) (db' : DB)
    (hwf : db.WF)
    (hS : set_default_collection db uid cid = .ok (col, db')) :
    col.id = cid ∧ col.user_id = uid ∧ col.is_default = true ∧
    defaultsOf db' uid = [col] ∧
    (∀ u, u ≠ uid → defaultsOf db' u = defaultsOf db u) ∧
    db'.collections.filter (fun c => c.user_id != uid) =
      db.collections.filter (fun c => c.user_id != uid) ∧
    db'.users = db.users ∧ db'.items = db.items ∧
    db'.price_history = db.price_history := by
  unfold set_default_collection at hS
  split at hS
  · exact absurd hS (by simp)
  next col0 heq =>
    rw [Except.ok.injEq, Prod.mk.injEq] at hS
    obtain ⟨hcol, hdb⟩ := hS
    have hpred := List.find?_some heq
    have hmem0 : col0 ∈ db.collections := List.mem_of_find?_eq_some heq
    have hid0 : col0.id = cid := by simp at hpred; exact hpred.1
    have huser0 : col0.user_id = uid := by simp at hpred; exact hpred.2
    subst hcol hdb
    have hcomp : (clearDefaults uid db.collections).map
        (replaceFn cid { col0 with is_default := true }) =
        db.collections.map
          (fun c => replaceFn cid { col0 with is_default := true } (clearFn uid c)) := by
      rw [clearDefaults, List.map_map]; rfl
    have hgid : ∀ c : CollectionRec,
        (replaceFn cid { col0 with is_default := true } (clearFn uid c)).id = c.id := by
      intro c
      rw [replaceFn_id cid _ _ (by simpa using hid0), clearFn_id]
    have hguser : ∀ c : CollectionRec,
        (replaceFn cid { col0 with is_default := true } (clearFn uid c)).user_id = c.user_id ∨
        (replaceFn cid { col0 with is_default := true } (clearFn uid c)).user_id = uid := by
      intro c
      rcases replaceFn_cases cid { col0 with is_default := true } (clearFn uid c) with hr | hr
      · rw [hr]; right; simpa using huser0
      · rw [hr, clearFn_user_id]; left; rfl
    have hpw := hwf.2.1
    have hsymm : Symmetric (fun a b : CollectionRec => a.id ≠ b.id) :=
      fun a b h => h.symm
    have hidne : ∀ c ∈ db.collections, c.user_id ≠ uid → c.id ≠ cid := by
      intro c hc hcu hcontra
      have hne : c ≠ col0 := by
        intro he
        rw [he] at hcu
        exact hcu huser0
      exact List.Pairwise.forall hsymm hpw hc hmem0 hne (hcontra.trans hid0.symm)
    have hgfix : ∀ c ∈ db.collections, c.user_id ≠ uid →
        replaceFn cid { col0 with is_default := true } (clearFn uid c) = c := by
      intro c hc hcu
      rw [clearFn_fix uid c hcu, replaceFn_fix cid _ c (hidne c hc hcu)]
    have hpw' :
        ((clearDefaults uid db.collections).map
          (replaceFn cid { col0 with is_default := true })).Pairwise
          (fun a b => a.id ≠ b.id) := by
      rw [hcomp]
      exact pairwise_ids_map CollectionRec.id _ db.collections hgid hpw
    refine ⟨hid0, huser0, rfl, ?_, ?_, ?_, rfl, rfl, rfl⟩
    · -- the owner's defaults collapse to exactly the target
      show ((clearDefaults uid db.collections).map
        (replaceFn cid { col0 with is_default := true })).filter
          (fun c => c.user_id == uid && c.is_default) = [{ col0 with is_default := true }]
      apply eq_singleton_of_pairwise CollectionRec.id
        (List.Pairwise.sublist (List.filter_sublist _) hpw')
      · intro y hy
        obtain ⟨hymem, hyp⟩ := List.mem_filter.mp hy
        rw [hcomp] at hymem
        obtain ⟨a, _, rfl⟩ := List.mem_map.mp hymem
        rcases replaceFn_cases cid { col0 with is_default := true } (clearFn uid a)
          with hr | hr
        · rw [hr]
        · rw [hr] at hyp
          exact absurd hyp (by simp [clearFn_not_default])
      · rw [List.mem_filter]
        constructor
        · rw [hcomp]
          refine List.mem_map.mpr ⟨col0, hmem0, ?_⟩
          unfold replaceFn
          rw [if_pos (by simp [clearFn_id, hid0])]
        · simp [huser0]
    · -- other owners' defaults are untouched
      intro u hu
      show ((clearDefaults uid db.collections).map
        (replaceFn cid { col0 with is_default := true })).filter
          (fun c => c.user_id == u && c.is_default) =
        db.collections.filter (fun c => c.user_id == u && c.is_default)
      rw [hcomp]
      apply filter_map_eq
      intro a ha
      by_cases hau : a.user_id = uid
      · left
        constructor
        · simp [hau, Ne.symm hu]
        · rcases hguser a with hsame | huid2
          · simp [hsame, hau, Ne.symm hu]
          · simp [huid2, Ne.symm hu]
      · exact Or.inr (hgfix a ha hau)
    · -- whole-row frame for other owners
      show ((clearDefaults uid db.collections).map
        (replaceFn cid { col0 with is_default := true })).filter
          (fun c => c.user_id != uid) =
        db.collections.filter (fun c => c.user_id != uid)
      rw [hcomp]
      apply filter_map_eq
      intro a ha
      by_cases hau : a.user_id = uid
      · left
        constructor
        · simp [hau]
        · rcases hguser a with hsame | huid2
          · simp [hsame, hau]
          · simp [huid2]
      · exact Or.inr (hgfix a ha hau)

/-- Filtering twice can only shrink the result of filtering once. -/
theorem filter_filter_length_le {α : Type} (p q : α → Bool) (l : List α) :
    ((l.filter q).filter p).length ≤ (l.filter p).length := by
  rw [List.filter_filter, ← List.countP_eq_length_filter, ← List.countP_eq_length_filter]
  exact List.countP_mono_left (fun a _ h => by
    rw [Bool.and_eq_true] at h
    exact h.1)

/-- `atMostOneDefault` only looks at the collections table. -/
theorem atMostOne_congr (db db' : DB) (u : Nat)
    (h : db'.collections = db.collections) (hinv : atMostOneDefault db u) :
    atMostOneDefault db' u := by
  unfold atMostOneDefault defaultsOf at *
  rw [h]
  exact hinv

/-- A successful registration touches only the users table. -/
theorem register_user_ok_shape (db : DB) (email password : String) (salt : Nat)
    (r : UserRec × DB) (h : register_user db email password salt = .ok r) :
    r.2.collections = db.collections ∧ r.2.items = db.items ∧
    r.2.price_history = db.price_history := by
  unfold register_user at h
  split at h
  · exact absurd h (by simp)
  · split at h
    · exact absurd h (by simp)
    · rw [Except.ok.injEq] at h
      subst h
      exact ⟨rfl, rfl, rfl⟩

/-- A successful item creation touches only items and price history. -/
theorem create_item_ok_shape (db : DB) (uid : Nat) (d : WishlistItemCreate)
    (dt : Nat) (r : ItemRec × DB) (h : create_wishlist_item db uid d dt = .ok r) :
    r.2.collections = db.collections ∧ r.2.users = db.users := by
  unfold create_wishlist_item at h
  split at h
  · exact absurd h (by simp)
  · rw [Except.ok.injEq] at h
    subst h
    exact ⟨rfl, rfl⟩

/-- A successful item update touches only the items table. -/
theorem update_item_ok_shape (db : DB) (uid item_id : Nat)
    (d : WishlistItemUpdate) (r : ItemRec × DB)
    (h : update_wishlist_item db uid item_id d = .ok r) :
    r.2.collections = db.collections ∧ r.2.users = db.users ∧
    r.2.price_history = db.price_history := by
  unfold update_wishlist_item at h
  split at h
  · exact absurd h (by simp)
  · split at h
    · exact absurd h (by simp)
    · split at h
      · exact absurd h (by simp)
      · rw [Except.ok.injEq] at h
        subst h
        exact ⟨rfl, rfl, rfl⟩

/-- A successful item deletion touches only items and price history. -/
theorem delete_item_ok_shape (db : DB) (uid item_id : Nat) (db2 : DB)
    (h : delete_wishlist_item db uid item_id = .ok db2) :
    db2.collections = db.collections ∧ db2.users = db.users := by
  unfold delete_wishlist_item at h
  split at h
  · exact absurd h (by simp)
  · split at h
    · exact absurd h (by simp)
    · rw [Except.ok.injEq] at h
      subst h
      exact ⟨rfl, rfl⟩

/-- A successful manual price-history insertion touches only that table. -/
theorem create_price_ok_shape (db : DB) (uid item_id : Nat) (price : Int)
    (r : PriceRec × DB) (h : create_price_history_entry db uid item_id price = .ok r) :
    r.2.collections = db.collections ∧ r.2.users = db.users ∧
    r.2.items = db.items := by
  unfold create_price_history_entry catchToHttp500 at h
  split at h
  next v heq =>
    split at heq
    · exact absurd heq (by simp)
    · rw [Except.ok.injEq] at heq
      rw [Except.ok.injEq] at h
      subst h
      rw [← heq]
      exact ⟨rfl, rfl, rfl⟩
  · exact absurd h (by simp)
  · exact absurd h (by simp)

/-- What a successful collection creation writes. -/
theorem create_collection_ok_shape (db : DB) (uid : Nat)
    (d : WishlistCollectionCreate) (r : CollectionRec × DB)
    (h : create_collection db uid d = .ok r) :
    ∃ colNew : CollectionRec,
      r.2.collections =
        (if d.is_default then clearDefaults uid db.collections
         else db.collections) ++ [colNew] ∧
      colNew.user_id = uid ∧ colNew.is_default = d.is_default ∧
      r.2.users = db.users ∧ r.2.items = db.items ∧
      r.2.price_history = db.price_history := by
  unfold create_collection at h
  split at h
  · exact absurd h (by simp)
  · rw [Except.ok.injEq] at h
    subst h
    exact ⟨_, rfl, rfl, rfl, rfl, rfl, rfl⟩

/-- What a successful collection update writes. -/
theorem update_collection_ok_shape (db : DB) (uid cid : Nat)
    (d : WishlistCollectionUpdate) (r : CollectionRec × DB)
    (h : update_collection db uid cid d = .ok r) :
    ∃ col0 : CollectionRec,
      db.collections.find? (fun c => c.id == cid && c.user_id == uid) = some col0 ∧
      r.1 = applyCollectionUpdate col0 d ∧
      ((d.is_default = some true ∧
        r.2.collections = (clearDefaultsExcept uid cid db.collections).map
          (replaceFn cid (applyCollectionUpdate col0 d))) ∨
       (d.is_default ≠ some true ∧
        r.2.collections = db.collections.map
          (replaceFn cid (applyCollectionUpdate col0 d)))) ∧
      r.2.users = db.users ∧ r.2.items = db.items ∧
      r.2.price_history = db.price_history := by
  unfold update_collection at h
  split at h
  · exact absurd h (by simp)
  next col0 heq =>
    split at h
    · exact absurd h (by simp)
    · split at h
      next hdef =>
        rw [Except.ok.injEq] at h
        subst h
        exact ⟨col0, heq, rfl, Or.inl ⟨hdef, rfl⟩, rfl, rfl, rfl⟩
      next hdef =>
        rw [Except.ok.injEq] at h
        subst h
        exact ⟨col0, heq, rfl, Or.inr ⟨hdef, rfl⟩, rfl, rfl, rfl⟩

/-- What a successful collection deletion removes. -/
theorem delete_collection_ok_shape (db : DB) (uid cid : Nat) (db2 : DB)
    (h : delete_collection db uid cid = .ok db2) :
    ∃ col0 : CollectionRec,
      db.collections.find? (fun c => c.id == cid && c.user_id == uid) = some col0 ∧
      ¬((db.collections.filter (fun c => c.user_id == uid)).length ≤ 1) ∧
      db2.collections = db.collections.filter (fun c => c.id != cid) ∧
      db2.items = db.items.filter (fun i => i.collection_id != cid) ∧
      db2.price_history = db.price_history.filter (fun p =>
        !(db.items.any (fun i => i.collection_id == cid && i.id == p.wishlist_item_id))) ∧
      db2.users = db.users := by
  unfold delete_collection at h
  split at h
  · exact absurd h (by simp)
  next col0 heq =>
    split at h
    · exact absurd h (by simp)
    next hcount =>
      rw [Except.ok.injEq] at h
      subst h
      exact ⟨col0, heq, hcount, rfl, rfl, rfl, rfl⟩

/-- Keeping at most one element after filtering a one-element append. -/
theorem filter_singleton_length_le {α : Type} (p : α → Bool) (x : α) :
    (List.filter p [x]).length ≤ 1 := by
  by_cases h : p x = true
  · simp [List.filter, h]
  · rw [Bool.not_eq_true] at h
    simp [List.filter, h]

/-- Every successful operation preserves "at most one default collection
per user", for every user. -/
theorem applyOp_preserves_atMostOne
    (op : Op) (db db' : DB) (u : Nat)
    (hwf : db.WF) (h : applyOp op db = .ok db') (hinv : atMostOneDefault db u) :
    atMostOneDefault db' u := by
  have hpw := hwf.2.1
  have hsymm : Symmetric (fun a b : CollectionRec => a.id ≠ b.id) :=
    fun a b hab => hab.symm
  cases op with
  | register email password salt =>
    simp only [applyOp] at h
    cases hr : register_user db email password salt with
    | error e => rw [hr] at h; exact absurd h (by simp [Except.map])
    | ok r =>
      rw [hr] at h
      simp only [Except.map, Except.ok.injEq] at h
      subst h
      exact atMostOne_congr db _ u (register_user_ok_shape db email password salt r hr).1 hinv
  | getCol uid cid =>
    simp only [applyOp] at h
    cases hr : get_collection db uid cid with
    | error e => rw [hr] at h; exact absurd h (by simp [Except.map])
    | ok v =>
      rw [hr] at h
      simp only [Except.map, Except.ok.injEq] at h
      subst h
      exact hinv
  | getItem uid item_id =>
    simp only [applyOp] at h
    cases hr : get_wishlist_item db uid item_id with
    | error e => rw [hr] at h; exact absurd h (by simp [Except.map])
    | ok v =>
      rw [hr] at h
      simp only [Except.map, Except.ok.injEq] at h
      subst h
      exact hinv
  | getItemHistory uid item_id =>
    simp only [applyOp] at h
    cases hr : get_item_price_history db uid item_id with
    | error e => rw [hr] at h; exact absurd h (by simp [Except.map])
    | ok v =>
      rw [hr] at h
      simp only [Except.map, Except.ok.injEq] at h
      subst h
      exact hinv
  | createItem uid d dt =>
    simp only [applyOp] at h
    cases hr : create_wishlist_item db uid d dt with
    | error e => rw [hr] at h; exact absurd h (by simp [Except.map])
    | ok r =>
      rw [hr] at h
      simp only [Except.map, Except.ok.injEq] at h
      subst h
      exact atMostOne_congr db _ u (create_item_ok_shape db uid d dt r hr).1 hinv
  | updateItem uid item_id d =>
    simp only [applyOp] at h
    cases hr : update_wishlist_item db uid item_id d with
    | error e => rw [hr] at h; exact absurd h (by simp [Except.map])
    | ok r =>
      rw [hr] at h
      simp only [Except.map, Except.ok.injEq] at h
      subst h
      exact atMostOne_congr db _ u (update_item_ok_shape db uid item_id d r hr).1 hinv
  | deleteItem uid item_id =>
    simp only [applyOp] at h
    exact atMostOne_congr db _ u (delete_item_ok_shape db uid item_id db' h).1 hinv
  | createPriceEntry uid item_id price =>
    simp only [applyOp] at h
    cases hr : create_price_history_entry db uid item_id price with
    | error e => rw [hr] at h; exact absurd h (by simp [Except.map])
    | ok r =>
      rw [hr] at h
      simp only [Except.map, Except.ok.injEq] at h
      subst h
      exact atMostOne_congr db _ u (create_price_ok_shape db uid item_id price r hr).1 hinv
  | deleteCol uid cid =>
    simp only [applyOp] at h
    obtain ⟨col0, heq, hcount, hcols, _, _, _⟩ :=
      delete_collection_ok_shape db uid cid db' h
    unfold atMostOneDefault defaultsOf at hinv ⊢
    rw [hcols]
    exact le_trans (filter_filter_length_le _ _ _) hinv
  | setDefaultCol uid cid =>
    simp only [applyOp] at h
    cases hr : set_default_collection db uid cid with
    | error e => rw [hr] at h; exact absurd h (by simp [Except.map])
    | ok r =>
      rw [hr] at h
      simp only [Except.map, Except.ok.injEq] at h
      subst h
      obtain ⟨_, _, _, hone, hother, _, _, _, _⟩ :=
        set_default_post db uid cid r.1 r.2 hwf (by rw [← hr])
      by_cases hu : u = uid
      · subst hu
        unfold atMostOneDefault
        rw [hone]
        simp
      · unfold atMostOneDefault
        rw [hother u hu]
        exact hinv
  | createCol uid d =>
    simp only [applyOp] at h
    cases hr : create_collection db uid d with
    | error e => rw [hr] at h; exact absurd h (by simp [Except.map])
    | ok r =>
      rw [hr] at h
      simp only [Except.map, Except.ok.injEq] at h
      subst h
      obtain ⟨colNew, hcols, hcu, hcd, _, _, _⟩ :=
        create_collection_ok_shape db uid d r hr
      unfold atMostOneDefault defaultsOf at hinv ⊢
      rw [hcols, List.filter_append]
      by_cases hdef : d.is_default = true
      · rw [hdef, if_pos rfl]
        by_cases hu : u = uid
        · subst hu
          rw [clearDefaults_filter_self]
          simpa using filter_singleton_length_le _ colNew
        · have hclear : (clearDefaults uid db.collections).filter
              (fun c => c.user_id == u && c.is_default) =
              db.collections.filter (fun c => c.user_id == u && c.is_default) := by
            apply filter_map_eq
            intro a _
            by_cases hau : a.user_id = uid
            · exact Or.inl ⟨by simp [hau, Ne.symm hu],
                by rw [clearFn_user_id]; simp [hau, Ne.symm hu]⟩
            · exact Or.inr (clearFn_fix uid a hau)
          rw [hclear]
          have hb : (colNew.user_id == u && colNew.is_default) = false := by
            rw [hcu]
            simp [Ne.symm hu]
          have hnew : List.filter (fun c => c.user_id == u && c.is_default) [colNew] = [] := by
            simp [List.filter, hb]
          rw [hnew]
          simpa using hinv
      · rw [Bool.not_eq_true] at hdef
        rw [hdef, if_neg (by simp)]
        have hb : (colNew.user_id == u && colNew.is_default) = false := by
          rw [hcd, hdef]
          simp
        have hnew : List.filter (fun c => c.user_id == u && c.is_default) [colNew] = [] := by
          simp [List.filter, hb]
        rw [hnew]
        simpa using hinv
  | updateCol uid cid d =>
    simp only [applyOp] at h
    cases hr : update_collection db uid cid d with
    | error e => rw [hr] at h; exact absurd h (by simp [Except.map])
    | ok r =>
      rw [hr] at h
      simp only [Except.map, Except.ok.injEq] at h
      subst h
      obtain ⟨col0, heq, hr1, hbranch, _, _, _⟩ :=
        update_collection_ok_shape db uid cid d r hr
      have hpred := List.find?_some heq
      have hmem0 : col0 ∈ db.collections := List.mem_of_find?_eq_some heq
      have hid0 : col0.id = cid := by simp at hpred; exact hpred.1
      have huser0 : col0.user_id = uid := by simp at hpred; exact hpred.2
      have hUid : (applyCollectionUpdate col0 d).id = cid := by
        rw [applyCollectionUpdate_id, hid0]
      have hUuser : (applyCollectionUpdate col0 d).user_id = uid := by
        rw [applyCollectionUpdate_user_id, huser0]
      have hidne : ∀ a ∈ db.collections, a.user_id ≠ uid → a.id ≠ cid := by
        intro a ha hau hcontra
        have hne : a ≠ col0 := by
          intro he
          rw [he] at hau
          exact hau huser0
        exact List.Pairwise.forall hsymm hpw ha hmem0 hne (hcontra.trans hid0.symm)
      unfold atMostOneDefault defaultsOf at hinv ⊢
      rcases hbranch with ⟨hdef, hcols⟩ | ⟨hdef, hcols⟩
      · -- the payload sets is_default=true: clear-then-write
        rw [hcols, clearDefaultsExcept, List.map_map]
        have hgid : ∀ c : CollectionRec,
            ((replaceFn cid (applyCollectionUpdate col0 d) ∘ clearExFn uid cid) c).id
              = c.id := by
          intro c
          simp only [Function.comp]
          rw [replaceFn_id cid _ _ hUid, clearExFn_id]
        by_cases hu : u = uid
        · rw [hu]
          apply length_le_one_of_pairwise CollectionRec.id
            (List.Pairwise.sublist (List.filter_sublist _)
              (pairwise_ids_map CollectionRec.id _ db.collections hgid hpw))
          intro y hy
          obtain ⟨hymem, hyp⟩ := List.mem_filter.mp hy
          obtain ⟨a, _, rfl⟩ := List.mem_map.mp hymem
          simp only [Function.comp] at hyp ⊢
          rcases replaceFn_cases cid (applyCollectionUpdate col0 d)
            (clearExFn uid cid a) with hrc | hrc
          · rw [hrc]
          · have haid : a.id = cid := clearExFn_default_imp uid cid a (by rw [← hrc]; exact hyp)
            unfold replaceFn
            rw [if_pos (by simp [clearExFn_id, haid])]
        · refine le_trans (le_of_eq (congrArg List.length ?_)) hinv
          apply filter_map_eq
          intro a ha
          by_cases hau : a.user_id = uid
          · left
            constructor
            · simp [hau, Ne.symm hu]
            · simp only [Function.comp]
              rcases replaceFn_cases cid (applyCollectionUpdate col0 d)
                (clearExFn uid cid a) with hrc | hrc
              · rw [hrc]; simp [hUuser, Ne.symm hu]
              · rw [hrc, clearExFn_user_id]; simp [hau, Ne.symm hu]
          · right
            simp only [Function.comp]
            rw [clearExFn_fix uid cid a hau, replaceFn_fix cid _ a (hidne a ha hau)]
      · -- no clearing: a single write-back of the loaded row
        rw [hcols]
        apply le_trans ?_ hinv
        apply filter_map_length_le
        intro a ha hpy
        by_cases hc : (a.id == cid) = true
        · have ha2 : a = col0 := by
            by_contra hne
            rw [beq_iff_eq] at hc
            exact List.Pairwise.forall hsymm hpw ha hmem0 hne (hc.trans hid0.symm)
          have hfire : replaceFn cid (applyCollectionUpdate col0 d) a =
              applyCollectionUpdate col0 d := by
            unfold replaceFn
            rw [if_pos hc]
          rw [hfire] at hpy
          rw [Bool.and_eq_true] at hpy
          have hUdef := applyCollectionUpdate_is_default col0 d
          cases hd : d.is_default with
          | none =>
            rw [hd] at hUdef
            simp only [Option.getD] at hUdef
            have h1 : (uid == u) = true := by rw [← hUuser]; exact hpy.1
            rw [ha2, Bool.and_eq_true]
            refine ⟨?_, ?_⟩
            · rw [huser0]
              exact h1
            · rw [← hUdef]
              exact hpy.2
          | some b =>
            cases b with
            | true => exact absurd hd hdef
            | false =>
              rw [hd] at hUdef
              simp only [Option.getD] at hUdef
              rw [hUdef] at hpy
              exact absurd hpy.2 (by simp)
        · rw [replaceFn_fix cid _ a (by simpa using hc)] at hpy
          exact hpy

/-! ## C2: default-collection exclusivity -/

/-- **C2** (confirmed). Every successful operation preserves "at most one
default collection per user" (for every user), and after a successful
set-default on collection `cidS` the returned row is that collection with
`is_default = true`, it is the owner's unique default, and the collections
of every other user are untouched. -/
theorem default_collection_exclusivity
    (op : Op) (db db' : DB) (u : Nat)
    (dbS dbS' : DB) (uidS cidS : Nat) (colS : CollectionRec)
    (hwf : db.WF) (h : applyOp op db = .ok db') (hinv : atMostOneDefault db u)
    (hwfS : dbS.WF)
    (hS : set_default_collection dbS uidS cidS = .ok (colS, dbS')) :
    atMostOneDefault db' u ∧
    colS.id = cidS ∧ colS.user_id = uidS ∧ colS.is_default = true ∧
    defaultsOf dbS' uidS = [colS] ∧
    dbS'.collections.filter (fun c => c.user_id != uidS) =
      dbS.collections.filter (fun c => c.user_id != uidS) := by
  obtain ⟨h1, h2, h3, h4, _, h6, _, _⟩ :=
    set_default_post dbS uidS cidS colS dbS' hwfS hS
  exact ⟨applyOp_preserves_atMostOne op db db' u hwf h hinv, h1, h2, h3, h4, h6⟩

/-- Witness for C2: a read on `db3` preserves the invariant for user 2, and
set-default on user 2's second collection in `db5` makes it the unique
default while user 1's (empty) fleet is untouched. -/
theorem default_collection_exclusivity_witness :
    atMostOneDefault db3 2 ∧
    col6d.id = 6 ∧ col6d.user_id = 2 ∧ col6d.is_default = true ∧
    defaultsOf db5d 2 = [col6d] ∧
    db5d.collections.filter (fun c => c.user_id != 2) =
      db5.collections.filter (fun c => c.user_id != 2) :=
  default_collection_exclusivity (.getCol 2 3) db3 db3 2 db5 db5d 2 6 col6d
    (by decide) rfl (by decide) (by decide) rfl

/-- A count over a predicate splits along a second predicate. -/
theorem countP_split {α : Type} (p q : α → Bool) (l : List α) :
    l.countP p = l.countP (fun a => p a && q a) + l.countP (fun a => p a && !q a) := by
  induction l with
  | nil => simp
  | cons a t ih =>
    by_cases hp : p a = true <;> by_cases hq : q a = true <;>
      simp [List.countP_cons, hp, hq, ih] <;> omega

/-- A filtered length is invariant under a map that does not change the
predicate's verdict. -/
theorem filter_map_length_eq {α : Type} (f : α → α) (p : α → Bool) (l : List α)
    (h : ∀ a ∈ l, p (f a) = p a) :
    ((l.map f).filter p).length = (l.filter p).length := by
  induction l with
  | nil => rfl
  | cons a t ih =>
    have ht := ih (fun x hx => h x (List.mem_cons_of_mem a hx))
    have ha := h a (List.mem_cons_self a t)
    rw [List.map_cons, List.filter_cons, List.filter_cons, ha]
    by_cases hp : p a = true
    · simp [hp, ht]
    · rw [Bool.not_eq_true] at hp
      simp [hp, ht]

/-- `collectionCount` only looks at the collections table. -/
theorem collectionCount_congr (db db' : DB) (u : Nat)
    (h : db'.collections = db.collections) :
    collectionCount db' u = collectionCount db u := by
  unfold collectionCount
  rw [h]

/-- Every successful operation keeps each user who owns at least one
collection owning at least one collection. -/
theorem applyOp_preserves_hasCollection
    (op : Op) (db db' : DB) (u : Nat)
    (hwf : db.WF) (h : applyOp op db = .ok db') (h1 : 1 ≤ collectionCount db u) :
    1 ≤ collectionCount db' u := by
  have hpw := hwf.2.1
  have hsymm : Symmetric (fun a b : CollectionRec => a.id ≠ b.id) :=
    fun a b hab => hab.symm
  cases op with
  | register email password salt =>
    simp only [applyOp] at h
    cases hr : register_user db email password salt with
    | error e => rw [hr] at h; exact absurd h (by simp [Except.map])
    | ok r =>
      rw [hr] at h
      simp only [Except.map, Except.ok.injEq] at h
      subst h
      rw [collectionCount_congr db r.2 u (register_user_ok_shape db email password salt r hr).1]
      exact h1
  | getCol uid cid =>
    simp only [applyOp] at h
    cases hr : get_collection db uid cid with
    | error e => rw [hr] at h; exact absurd h (by simp [Except.map])
    | ok v =>
      rw [hr] at h
      simp only [Except.map, Except.ok.injEq] at h
      subst h
      exact h1
  | getItem uid item_id =>
    simp only [applyOp] at h
    cases hr : get_wishlist_item db uid item_id with
    | error e => rw [hr] at h; exact absurd h (by simp [Except.map])
    | ok v =>
      rw [hr] at h
      simp only [Except.map, Except.ok.injEq] at h
      subst h
      exact h1
  | getItemHistory uid item_id =>
    simp only [applyOp] at h
    cases hr : get_item_price_history db uid item_id with
    | error e => rw [hr] at h; exact absurd h (by simp [Except.map])
    | ok v =>
      rw [hr] at h
      simp only [Except.map, Except.ok.injEq] at h
      subst h
      exact h1
  | createItem uid d dt =>
    simp only [applyOp] at h
    cases hr : create_wishlist_item db uid d dt with
    | error e => rw [hr] at h; exact absurd h (by simp [Except.map])
    | ok r =>
      rw [hr] at h
      simp only [Except.map, Except.ok.injEq] at h
      subst h
      rw [collectionCount_congr db r.2 u (create_item_ok_shape db uid d dt r hr).1]
      exact h1
  | updateItem uid item_id d =>
    simp only [applyOp] at h
    cases hr : update_wishlist_item db uid item_id d with
    | error e => rw [hr] at h; exact absurd h (by simp [Except.map])
    | ok r =>
      rw [hr] at h
      simp only [Except.map, Except.ok.injEq] at h
      subst h
      rw [collectionCount_congr db r.2 u (update_item_ok_shape db uid item_id d r hr).1]
      exact h1
  | deleteItem uid item_id =>
    simp only [applyOp] at h
    rw [collectionCount_congr db db' u (delete_item_ok_shape db uid item_id db' h).1]
    exact h1
  | createPriceEntry uid item_id price =>
    simp only [applyOp] at h
    cases hr : create_price_history_entry db uid item_id price with
    | error e => rw [hr] at h; exact absurd h (by simp [Except.map])
    | ok r =>
      rw [hr] at h
      simp only [Except.map, Except.ok.injEq] at h
      subst h
      rw [collectionCount_congr db r.2 u (create_price_ok_shape db uid item_id price r hr).1]
      exact h1
  | createCol uid d =>
    simp only [applyOp] at h
    cases hr : create_collection db uid d with
    | error e => rw [hr] at h; exact absurd h (by simp [Except.map])
    | ok r =>
      rw [hr] at h
      simp only [Except.map, Except.ok.injEq] at h
      subst h
      obtain ⟨colNew, hcols, _, _, _, _, _⟩ := create_collection_ok_shape db uid d r hr
      unfold collectionCount at h1 ⊢
      rw [hcols, List.filter_append]
      have hpre : ((if d.is_default = true then clearDefaults uid db.collections
          else db.collections).filter (fun c => c.user_id == u)).length =
          (db.collections.filter (fun c => c.user_id == u)).length := by
        by_cases hdef : d.is_default = true
        · rw [hdef, if_pos rfl]
          apply filter_map_length_eq
          intro a _
          rw [clearFn_user_id]
        · rw [Bool.not_eq_true] at hdef
          rw [hdef, if_neg (by simp)]
      rw [List.length_append, hpre]
      omega
  | updateCol uid cid d =>
    simp only [applyOp] at h
    cases hr : update_collection db uid cid d with
    | error e => rw [hr] at h; exact absurd h (by simp [Except.map])
    | ok r =>
      rw [hr] at h
      simp only [Except.map, Except.ok.injEq] at h
      subst h
      obtain ⟨col0, heq, _, hbranch, _, _, _⟩ :=
        update_collection_ok_shape db uid cid d r hr
      have hpred := List.find?_some heq
      have hmem0 : col0 ∈ db.collections := List.mem_of_find?_eq_some heq
      have hid0 : col0.id = cid := by simp at hpred; exact hpred.1
      have huser0 : col0.user_id = uid := by simp at hpred; exact hpred.2
      have hUuser : (applyCollectionUpdate col0 d).user_id = uid := by
        rw [applyCollectionUpdate_user_id, huser0]
      have hsameuser : ∀ a ∈ db.collections,
          ((replaceFn cid (applyCollectionUpdate col0 d) a).user_id == u) =
            (a.user_id == u) := by
        intro a ha
        by_cases hc : (a.id == cid) = true
        · have ha2 : a = col0 := by
            by_contra hne
            rw [beq_iff_eq] at hc
            exact List.Pairwise.forall hsymm hpw ha hmem0 hne (hc.trans hid0.symm)
          have hfire : replaceFn cid (applyCollectionUpdate col0 d) a =
              applyCollectionUpdate col0 d := by
            unfold replaceFn
            rw [if_pos hc]
          rw [hfire, hUuser, ha2, huser0]
        · rw [replaceFn_fix cid _ a (by simpa using hc)]
      unfold collectionCount at h1 ⊢
      rcases hbranch with ⟨_, hcols⟩ | ⟨_, hcols⟩
      · rw [hcols, clearDefaultsExcept, List.map_map]
        rw [filter_map_length_eq]
        · exact h1
        · intro a ha
          simp only [Function.comp]
          by_cases hc : (a.id == cid) = true
          · have ha2 : a = col0 := by
              by_contra hne
              rw [beq_iff_eq] at hc
              exact List.Pairwise.forall hsymm hpw ha hmem0 hne (hc.trans hid0.symm)
            have hfire : replaceFn cid (applyCollectionUpdate col0 d)
                (clearExFn uid cid a) = applyCollectionUpdate col0 d := by
              unfold replaceFn
              rw [if_pos (by rw [clearExFn_id]; exact hc)]
            rw [hfire, hUuser, ha2, huser0]
          · have hnofire : replaceFn cid (applyCollectionUpdate col0 d)
                (clearExFn uid cid a) = clearExFn uid cid a :=
              replaceFn_fix _ _ _ (by rw [clearExFn_id]; simpa using hc)
            rw [hnofire, clearExFn_user_id]
      · rw [hcols, filter_map_length_eq]
        · exact h1
        · intro a ha
          rw [hsameuser a ha]
  | deleteCol uid cid =>
    simp only [applyOp] at h
    obtain ⟨col0, heq, hcount, hcols, _, _, _⟩ :=
      delete_collection_ok_shape db uid cid db' h
    have hpred := List.find?_some heq
    have hmem0 : col0 ∈ db.collections := List.mem_of_find?_eq_some heq
    have hid0 : col0.id = cid := by simp at hpred; exact hpred.1
    have huser0 : col0.user_id = uid := by simp at hpred; exact hpred.2
    unfold collectionCount at h1 ⊢
    rw [hcols, List.filter_filter, ← List.countP_eq_length_filter]
    rw [← List.countP_eq_length_filter] at h1
    by_cases hu : u = uid
    · subst hu
      have hsplit := countP_split (fun c : CollectionRec => c.user_id == u)
        (fun c : CollectionRec => c.id != cid) db.collections
      have hle1 : db.collections.countP
          (fun c => c.user_id == u && !(c.id != cid)) ≤ 1 := by
        rw [List.countP_eq_length_filter]
        apply length_le_one_of_pairwise CollectionRec.id
          (List.Pairwise.sublist (List.filter_sublist _) hpw)
        intro y hy
        obtain ⟨hymem, hyp⟩ := List.mem_filter.mp hy
        rw [Bool.and_eq_true] at hyp
        have hyid : y.id = cid := by
          have := hyp.2
          simp at this
          exact this
        by_contra hne
        exact List.Pairwise.forall hsymm hpw hymem hmem0 hne (hyid.trans hid0.symm)
      rw [← List.countP_eq_length_filter] at hcount
      omega
    · have himp : ∀ a ∈ db.collections, (a.user_id == u) = true →
          ((a.user_id == u) && (a.id != cid)) = true := by
        intro a ha hau
        have haid : a.id ≠ cid := by
          intro hcontra
          have hne : a ≠ col0 := by
            intro he
            rw [he] at hau
            rw [beq_iff_eq] at hau
            rw [huser0] at hau
            exact hu hau.symm
          exact List.Pairwise.forall hsymm hpw ha hmem0 hne (hcontra.trans hid0.symm)
        simp [hau, haid]
      have hge := List.countP_mono_left himp
      exact le_trans h1 hge
  | setDefaultCol uid cid =>
    simp only [applyOp] at h
    cases hr : set_default_collection db uid cid with
    | error e => rw [hr] at h; exact absurd h (by simp [Except.map])
    | ok r =>
      rw [hr] at h
      simp only [Except.map, Except.ok.injEq] at h
      subst h
      unfold set_default_collection at hr
      split at hr
      · exact absurd hr (by simp)
      next col0 heq =>
        rw [Except.ok.injEq] at hr
        have hcols : r.2.collections =
            (clearDefaults uid db.collections).map
              (replaceFn cid { col0 with is_default := true }) := by
          rw [← hr]
        have hpred := List.find?_some heq
        have hmem0 : col0 ∈ db.collections := List.mem_of_find?_eq_some heq
        have hid0 : col0.id = cid := by simp at hpred; exact hpred.1
        have huser0 : col0.user_id = uid := by simp at hpred; exact hpred.2
        unfold collectionCount at h1 ⊢
        rw [hcols, clearDefaults, List.map_map, filter_map_length_eq]
        · exact h1
        · intro a ha
          simp only [Function.comp]
          by_cases hc : (a.id == cid) = true
          · have ha2 : a = col0 := by
              by_contra hne
              rw [beq_iff_eq] at hc
              exact List.Pairwise.forall hsymm hpw ha hmem0 hne (hc.trans hid0.symm)
            have hfire : replaceFn cid { col0 with is_default := true }
                (clearFn uid a) = { col0 with is_default := true } := by
              unfold replaceFn
              rw [if_pos (by rw [clearFn_id]; exact hc)]
            rw [hfire, ha2]
          · have hnofire := replaceFn_fix cid { col0 with is_default := true }
              (clearFn uid a) (by rw [clearFn_id]; simpa using hc)
            rw [hnofire, clearFn_user_id]

/-- **C4** (amended, proved as amended). Once a user owns at least one
collection, every successful operation leaves them with at least one; and a
delete aimed at a user's only remaining collection is rejected with
`ConflictError` (the raised error aborts the transaction, so the state is
unchanged). Registration itself creates no collection — see the
counterexample theorem. -/
theorem user_keeps_collections
    (op : Op) (db db' : DB) (u uid cid : Nat) (c0 : CollectionRec)
    (hwf : db.WF) (h : applyOp op db = .ok db') (h1 : 1 ≤ collectionCount db u)
    (hfind : db.collections.find? (fun x => x.id == cid && x.user_id == uid) = some c0)
    (hone : collectionCount db uid = 1) :
    1 ≤ collectionCount db' u ∧
    delete_collection db uid cid =
      .error (.conflictError "Cannot delete the last remaining collection") := by
  refine ⟨applyOp_preserves_hasCollection op db db' u hwf h h1, ?_⟩
  have hcount : (db.collections.filter (fun c => c.user_id == uid)).length ≤ 1 := by
    unfold collectionCount at hone
    omega
  simp only [delete_collection, hfind]
  rw [if_pos hcount]

/-- Witness for C4's amended statement: in `db3`, user 2 owns exactly one
collection; a read succeeds keeping the count at one, and deleting that
last collection is rejected. -/
theorem user_keeps_collections_witness :
    1 ≤ collectionCount db3 2 ∧
    delete_collection db3 2 3 =
      .error (.conflictError "Cannot delete the last remaining collection") :=
  user_keeps_collections (.getCol 2 3) db3 db3 2 2 3 col3
    (by decide) rfl (by decide) rfl (by decide)

/-! ## C5: delete semantics (last-collection guard and cascades) -/

/-- **C5** (confirmed). Deleting a user's only remaining collection raises
`ConflictError` (no state change: the raise aborts the transaction before
the delete); a delete when the user owns more than one succeeds and
cascades: the collection row, its items and those items' price-history
entries are removed — each post-state table is exactly the old table with
the cascade victims filtered out, so every other collection, item and
price row survives unchanged, as does the users table. -/
theorem delete_collection_semantics
    (dbA : DB) (uidA cidA : Nat) (cA : CollectionRec)
    (dbB dbB' : DB) (uidB cidB : Nat)
    (hfindA : dbA.collections.find? (fun c => c.id == cidA && c.user_id == uidA) = some cA)
    (honeA : collectionCount dbA uidA ≤ 1)
    (hdelB : delete_collection dbB uidB cidB = .ok dbB') :
    delete_collection dbA uidA cidA =
      .error (.conflictError "Cannot delete the last remaining collection") ∧
    dbB'.collections.all (fun c => c.id != cidB) = true ∧
    dbB'.items.all (fun i => i.collection_id != cidB) = true ∧
    dbB'.price_history.all (fun p =>
      !(dbB.items.any (fun i => i.collection_id == cidB && i.id == p.wishlist_item_id))) = true ∧
    dbB'.collections = dbB.collections.filter (fun c => c.id != cidB) ∧
    dbB'.items = dbB.items.filter (fun i => i.collection_id != cidB) ∧
    dbB'.price_history = dbB.price_history.filter (fun p =>
      !(dbB.items.any (fun i => i.collection_id == cidB && i.id == p.wishlist_item_id))) ∧
    dbB'.users = dbB.users := by
  obtain ⟨c0, _, _, hcols, hitems, hprice, husers⟩ :=
    delete_collection_ok_shape dbB uidB cidB dbB' hdelB
  refine ⟨?_, ?_, ?_, ?_, hcols, hitems, hprice, husers⟩
  · have hcount : (dbA.collections.filter (fun c => c.user_id == uidA)).length ≤ 1 := by
      unfold collectionCount at honeA
      omega
    simp only [delete_collection, hfindA]
    rw [if_pos hcount]
  · rw [hcols, List.all_eq_true]
    intro x hx
    exact (List.mem_filter.mp hx).2
  · rw [hitems, List.all_eq_true]
    intro x hx
    exact (List.mem_filter.mp hx).2
  · rw [hprice, List.all_eq_true]
    intro x hx
    exact (List.mem_filter.mp hx).2

/-- Witness for C5: user 2's only collection in `db3` cannot be deleted,
while deleting `col3` in `db5` (user 2 owns two) cascades away `item4` and
`price5` and keeps `col6` and the users. -/
theorem delete_collection_semantics_witness :
    delete_collection db3 2 3 =
      .error (.conflictError "Cannot delete the last remaining collection") ∧
    db5del.collections.all (fun c => c.id != 3) = true ∧
    db5del.items.all (fun i => i.collection_id != 3) = true ∧
    db5del.price_history.all (fun p =>
      !(db5.items.any (fun i => i.collection_id == 3 && i.id == p.wishlist_item_id))) = true ∧
    db5del.collections = db5.collections.filter (fun c => c.id != 3) ∧
    db5del.items = db5.items.filter (fun i => i.collection_id != 3) ∧
    db5del.price_history = db5.price_history.filter (fun p =>
      !(db5.items.any (fun i => i.collection_id == 3 && i.id == p.wishlist_item_id))) ∧
    db5del.users = db5.users :=
  delete_collection_semantics db3 2 3 col3 db5 db5del 2 3 rfl (by decide) rfl

end MiraWish
